import Mathlib

/-!
# KWayland client: PlasmaShell, PlasmaShellSurface and Buffer

A shallow embedding of `src/client/plasmashell.cpp` and `src/client/buffer.h`.

Conventions of the embedding

* A C pointer is an `Option`: `none` is `nullptr`.
* `Q_ASSERT` and `Q_UNREACHABLE` have their debug-build meaning: a failed
  assertion stops the call.  The outcome `aborted` carries the state at the
  moment of the stop, so that what was (not) sent before it can be read off.
* Every call into the generated protocol stubs, the event queue and the
  protocol destructors is appended to a list of `Call`s, in program order.
  A call records the raw pointer it was given, which may be `nullptr`.
* The process keeps a record `cleared` of the handles that went from bound to
  unbound, oldest first.  No code reads it; it only makes the order of the
  teardown visible where no call is made.
* The constants of the generated header
  `wayland-plasma-shell-client-protocol.h` are kept symbolic: one constructor
  per constant name.
-/

namespace KWayland
namespace Client

/-! ## Basic data -/

/-- The address of a `PlasmaShellSurface` object.  Its `Private` is allocated
with it and lives as long, so the same number identifies the `Private*`. -/
abbrev ObjectId := Nat

/-- The address of a generic `Surface` object (`Surface*`). -/
abbrev SurfaceId := Nat

/-- The address of a native `wl_surface`. -/
abbrev WlSurface := Nat

/-- The address of an `EventQueue`. -/
abbrev QueueId := Nat

/-- The address of a live native protocol object (`wl_proxy`). -/
abbrev Proxy := Nat

/-- Reasons for which a call stops before its end. -/
inductive Fault where
  | assertion
  | unreachable
deriving DecidableEq, Repr

/-- Outcome of a call: it returned `a` in state `s`, or it stopped on fault `f`
in state `s`. -/
inductive Outcome (α σ : Type) where
  | returned (a : α) (s : σ)
  | aborted (f : Fault) (s : σ)
deriving DecidableEq, Repr

/-- The state in which a call ended, whether it returned or stopped. -/
def Outcome.state {α σ : Type} : Outcome α σ → σ
  | .returned _ s => s
  | .aborted _ s => s

/-- A value of a C++ scoped enumeration type: one of the enumerators the code
names, or any other value of the underlying integer type (which a
`static_cast` can produce). -/
inductive EnumValue (α : Type) where
  | enumerator (e : α)
  | other (raw : Int)
deriving DecidableEq, Repr

/-- Enumerators of `PlasmaShellSurface::Role` named by `setRole`. -/
inductive Role where
  | Normal
  | Desktop
  | Panel
  | OnScreenDisplay
  | Notification
  | ToolTip
  | CriticalNotification
deriving DecidableEq, Repr

/-- Enumerators of `PlasmaShellSurface::PanelBehavior` named by
`setPanelBehavior`. -/
inductive PanelBehavior where
  | AlwaysVisible
  | AutoHide
  | WindowsCanCover
  | WindowsGoBelow
deriving DecidableEq, Repr

/-- Enumerators of `PlasmaShellSurface::WindowType` named by `setWindowType`. -/
inductive WindowType where
  | TYPE_WALLPAPER
  | TYPE_DESKTOP
  | TYPE_DIALOG
  | TYPE_SYS_SPLASH
  | TYPE_SEARCH_BAR
  | TYPE_NOTIFICATION
  | TYPE_CRITICAL_NOTIFICATION
  | TYPE_INPUT_METHOD
  | TYPE_INPUT_METHOD_DIALOG
  | TYPE_DND
  | TYPE_DOCK
  | TYPE_APPLICATION_OVERLAY
  | TYPE_STATUS_BAR
  | TYPE_STATUS_BAR_PANEL
  | TYPE_TOAST
  | TYPE_KEYGUARD
  | TYPE_PHONE
  | TYPE_SYSTEM_DIALOG
  | TYPE_SYSTEM_ERROR
  | TYPE_VOICE_INTERACTION
  | TYPE_SCREENSHOT
  | TYPE_BOOT_PROGRESS
  | TYPE_POINTER
  | TYPE_LAST_SYS_LAYER
  | TYPE_BASE_APPLICATION
  | TYPE_APPLICATION
  | TYPE_APPLICATION_STARTING
  | TYPE_LAST_APPLICATION_WINDOW
deriving DecidableEq, Repr

/-! ## Constants of the generated protocol header (symbolic) -/

/-- The constants `ORG_KDE_PLASMA_SURFACE_ROLE_*`. -/
inductive WlRole where
  | ROLE_NORMAL
  | ROLE_DESKTOP
  | ROLE_PANEL
  | ROLE_ONSCREENDISPLAY
  | ROLE_NOTIFICATION
  | ROLE_TOOLTIP
  | ROLE_CRITICALNOTIFICATION
deriving DecidableEq, Repr

/-- The constants `ORG_KDE_PLASMA_SURFACE_PANEL_BEHAVIOR_*`. -/
inductive WlPanelBehavior where
  | PANEL_BEHAVIOR_ALWAYS_VISIBLE
  | PANEL_BEHAVIOR_AUTO_HIDE
  | PANEL_BEHAVIOR_WINDOWS_CAN_COVER
  | PANEL_BEHAVIOR_WINDOWS_GO_BELOW
deriving DecidableEq, Repr

/-- The constants `ORG_KDE_PLASMA_SURFACE_WINDOW_TYPE_*`. -/
inductive WlWindowType where
  | WINDOW_TYPE_WALLPAPER
  | WINDOW_TYPE_DESKTOP
  | WINDOW_TYPE_DIALOG
  | WINDOW_TYPE_SYS_SPLASH
  | WINDOW_TYPE_SEARCH_BAR
  | WINDOW_TYPE_NOTIFICATION
  | WINDOW_TYPE_CRITICAL_NOTIFICATION
  | WINDOW_TYPE_INPUT_METHOD
  | WINDOW_TYPE_INPUT_METHOD_DIALOG
  | WINDOW_TYPE_DND
  | WINDOW_TYPE_DOCK
  | WINDOW_TYPE_APPLICATION_OVERLAY
  | WINDOW_TYPE_STATUS_BAR
  | WINDOW_TYPE_STATUS_BAR_PANEL
  | WINDOW_TYPE_TOAST
  | WINDOW_TYPE_KEYGUARD
  | WINDOW_TYPE_PHONE
  | WINDOW_TYPE_SYSTEM_DIALOG
  | WINDOW_TYPE_SYSTEM_ERROR
  | WINDOW_TYPE_VOICE_INTERACTION
  | WINDOW_TYPE_SCREENSHOT
  | WINDOW_TYPE_BOOT_PROGRESS
  | WINDOW_TYPE_POINTER
  | WINDOW_TYPE_LAST_SYS_LAYER
  | WINDOW_TYPE_BASE_APPLICATION
  | WINDOW_TYPE_APPLICATION
  | WINDOW_TYPE_APPLICATION_STARTING
  | WINDOW_TYPE_LAST_APPLICATION_WINDOW
deriving DecidableEq, Repr

/-- Calls that leave the binding layer, with the arguments they were given.
The first argument of a request on a surface is the raw pointer obtained from
`d->surface`. -/
inductive Call where
  | get_surface (shell : Option Proxy) (surface : WlSurface) (created : Proxy)
  | addProxy (queue : QueueId) (proxy : Proxy)
  | set_position (surface : Option Proxy) (x y : Int)
  | set_role (surface : Option Proxy) (role : WlRole)
  | set_panel_behavior (surface : Option Proxy) (flag : WlPanelBehavior)
  | set_skip_taskbar (surface : Option Proxy) (skip : Bool)
  | set_skip_switcher (surface : Option Proxy) (skip : Bool)
  | panel_auto_hide_hide (surface : Option Proxy)
  | panel_auto_hide_show (surface : Option Proxy)
  | set_panel_takes_focus (surface : Option Proxy) (takesFocus : Bool)
  | set_visible (surface : Option Proxy) (visible : Bool)
  | set_window_type (surface : Option Proxy) (type : WlWindowType)
  | shell_destroy (shell : Proxy)
  | surface_destroy (surface : Proxy)
deriving DecidableEq, Repr

/-- The two signals of `PlasmaShellSurface`. -/
inductive Signal where
  | autoHidePanelHidden
  | autoHidePanelShown
deriving DecidableEq, Repr

/-! ## Buffer (buffer.h) -/

/-- The data members of `Buffer`. -/
structure Buffer where
  m_shm : Nat
  m_nativeBuffer : Option Nat
  m_released : Bool
  m_size : Int × Int
  m_stride : Int
  m_offset : Nat
  m_used : Bool
deriving DecidableEq, Repr

/-- `Buffer::buffer`. -/
def Buffer.buffer (b : Buffer) : Option Nat := b.m_nativeBuffer

/-- `Buffer::size`. -/
def Buffer.size (b : Buffer) : Int × Int := b.m_size

/-- `Buffer::stride`. -/
def Buffer.stride (b : Buffer) : Int := b.m_stride

/-- `Buffer::isReleased`. -/
def Buffer.isReleased (b : Buffer) : Bool := b.m_released

/-- `Buffer::setReleased`. -/
def Buffer.setReleased (released : Bool) (b : Buffer) : Buffer :=
  { b with m_released := released }

/-- `Buffer::isUsed`. -/
def Buffer.isUsed (b : Buffer) : Bool := b.m_used

/-- `Buffer::setUsed`. -/
def Buffer.setUsed (used : Bool) (b : Buffer) : Buffer :=
  { b with m_used := used }

/-! ## What the code takes from its collaborators -/

/-- Functions and constants that plasmashell.cpp uses and that are defined
outside it: `Surface::get` and the conversion of a `Surface` to its native
`wl_surface` (surface.cpp), `wl_proxy_get_version` (libwayland), and the
constant `ORG_KDE_PLASMA_SURFACE_ROLE_CRITICALNOTIFICATION_SINCE_VERSION` of
the generated protocol header. -/
structure Env where
  Surface_get : WlSurface → Option SurfaceId
  Surface_native : SurfaceId → WlSurface
  proxy_version : Proxy → Nat
  ROLE_CRITICALNOTIFICATION_SINCE_VERSION : Nat

/-- `wl_proxy_get_version` on a raw pointer.  The code only calls it behind
`Q_ASSERT(isValid())`, so the value chosen for `nullptr` is never read there. -/
def wl_proxy_get_version (env : Env) : Option Proxy → Nat
  | some p => env.proxy_version p
  | none => 0

/-- What the calls of the binding layer leave outside the objects themselves:
the calls made so far, the listeners registered with libwayland (proxy and
user data), and the signals emitted so far (sender and signal). -/
structure Effects where
  calls : List Call
  listeners : List (Proxy × ObjectId)
  signals : List (ObjectId × Signal)
deriving DecidableEq, Repr

/-- `wl_proxy_add_listener` as used by `org_kde_plasma_surface_add_listener`:
a proxy keeps the first listener it is given, a second registration is
refused.  The user data is the `Private*`, identified by its object. -/
def add_listener (proxy : Option Proxy) (data : ObjectId)
    (listeners : List (Proxy × ObjectId)) : List (Proxy × ObjectId) :=
  match proxy with
  | none => listeners
  | some p => if listeners.any (fun l => l.1 == p) then listeners else listeners ++ [(p, data)]

/-! ## WaylandPointer -/

/-- Modelled from the spec: `WaylandPointer` of wayland_pointer_p.h, which is
not among the sources; the spec calls it NativeHandle: "wraps exactly one
native object pointer". -/
structure WaylandPointer where
  m_pointer : Option Proxy
deriving DecidableEq, Repr

/-- Modelled from the spec: `WaylandPointer::isValid` (wayland_pointer_p.h is
missing): "true iff currently bound". -/
def WaylandPointer.isValid (p : WaylandPointer) : Bool := p.m_pointer.isSome

/-- Modelled from the spec: `WaylandPointer::setup` (wayland_pointer_p.h is
missing): "binds the wrapper to a live handle. Fails (precondition violation,
fatal in debug builds) if already bound or if nativeObject is null". -/
def WaylandPointer.setup (pointer : Option Proxy) (p : WaylandPointer) :
    Outcome Unit WaylandPointer :=
  match pointer with
  | none => .aborted .assertion p
  | some n => if p.isValid then .aborted .assertion p else .returned () { m_pointer := some n }

/-- Modelled from the spec: `WaylandPointer::release` (wayland_pointer_p.h is
missing): "if bound, invokes the type-specific protocol destructor and clears
the handle to unbound. No-op if already unbound".  The destructor is the
template argument `deleter`; its invocation is recorded as a call. -/
def WaylandPointer.release (deleter : Proxy → Call) (p : WaylandPointer) (calls : List Call) :
    WaylandPointer × List Call :=
  match p.m_pointer with
  | none => (p, calls)
  | some n => ({ m_pointer := none }, calls ++ [deleter n])

/-- Modelled from the spec: `WaylandPointer::destroy` (wayland_pointer_p.h is
missing): "if bound, clears the handle to unbound without invoking the
protocol destructor". -/
def WaylandPointer.destroy (p : WaylandPointer) : WaylandPointer :=
  match p.m_pointer with
  | none => p
  | some _ => { m_pointer := none }

/-! ## PlasmaShellSurface -/

/-- The data members of `PlasmaShellSurface::Private`.  `windowType` has no
initialiser in the constructor, hence the `Option`. -/
structure PlasmaShellSurface.Private where
  surface : WaylandPointer
  size : Int × Int
  parentSurface : Option SurfaceId
  role : EnumValue Role
  windowType : Option (EnumValue WindowType)
  q : ObjectId
deriving DecidableEq, Repr

namespace PlasmaShellSurface

/-- The members as `Private::Private(q)` leaves them: `role(Role::Normal)`,
`q(q)`, the others default-constructed.  The `s_surfaces << this` of the same
constructor is `Private.construct`. -/
def Private.fresh (q : ObjectId) : Private :=
  { surface := { m_pointer := none }
    size := (-1, -1)
    parentSurface := none
    role := .enumerator .Normal
    windowType := none
    q := q }

/-- `Private::Private(q)` on the process-wide `s_surfaces`: the new `Private`
is appended. -/
def Private.construct (q : ObjectId) (s_surfaces : List Private) : List Private :=
  s_surfaces ++ [Private.fresh q]

/-- `PlasmaShellSurface::Private::get`: the `q` of the first entry of
`s_surfaces` whose `parentSurface` is `surface`; `nullptr` for a null
`surface` or when there is none. -/
def Private.get (surface : Option SurfaceId) (s_surfaces : List Private) : Option ObjectId :=
  match surface with
  | none => none
  | some k =>
    match s_surfaces.find? (fun d => d.parentSurface == some k) with
    | some d => some d.q
    | none => none

/-- `PlasmaShellSurface::Private::setup`. -/
def Private.setup (s : Option Proxy) (d : Private) (e : Effects) :
    Outcome Unit (Private × Effects) :=
  if s.isNone then .aborted .assertion (d, e)
  else if d.surface.isValid then .aborted .assertion (d, e)
  else
    match d.surface.setup s with
    | .aborted f p => .aborted f ({ d with surface := p }, e)
    | .returned _ p =>
      .returned () ({ d with surface := p },
        { e with listeners := add_listener p.m_pointer d.q e.listeners })

/-- `PlasmaShellSurface::Private::autoHidingPanelHiddenCallback`; `data` is
the `Private` the user-data pointer points to. -/
def Private.autoHidingPanelHiddenCallback (data : Private) (org_kde_plasma_surface : Option Proxy)
    (e : Effects) : Outcome Unit Effects :=
  if data.surface.m_pointer = org_kde_plasma_surface then
    .returned () { e with signals := e.signals ++ [(data.q, Signal.autoHidePanelHidden)] }
  else .aborted .assertion e

/-- `PlasmaShellSurface::Private::autoHidingPanelShownCallback`. -/
def Private.autoHidingPanelShownCallback (data : Private) (org_kde_plasma_surface : Option Proxy)
    (e : Effects) : Outcome Unit Effects :=
  if data.surface.m_pointer = org_kde_plasma_surface then
    .returned () { e with signals := e.signals ++ [(data.q, Signal.autoHidePanelShown)] }
  else .aborted .assertion e

/-- `PlasmaShellSurface::release`. -/
def release (d : Private) (e : Effects) : Private × Effects :=
  let r := d.surface.release Call.surface_destroy e.calls
  ({ d with surface := r.1 }, { e with calls := r.2 })

/-- `PlasmaShellSurface::destroy`. -/
def destroy (d : Private) (e : Effects) : Private × Effects :=
  ({ d with surface := d.surface.destroy }, e)

/-- `PlasmaShellSurface::setup`. -/
def setup (surface : Option Proxy) (d : Private) (e : Effects) : Outcome Unit (Private × Effects) :=
  Private.setup surface d e

/-- `PlasmaShellSurface::isValid`. -/
def isValid (d : Private) : Bool := d.surface.isValid

/-- `PlasmaShellSurface::role`. -/
def role (d : Private) : EnumValue Role := d.role

/-- `PlasmaShellSurface::setPosition`. -/
def setPosition (x y : Int) (d : Private) (e : Effects) : Outcome Unit (Private × Effects) :=
  if !isValid d then .aborted .assertion (d, e)
  else .returned () (d, { e with calls := e.calls ++ [Call.set_position d.surface.m_pointer x y] })

/-- The `switch` of `setRole`: the protocol constant for `role`, `none` where
the `default` branch runs into `Q_UNREACHABLE`. -/
def setRole.wlRole (env : Env) (surface : Option Proxy) : EnumValue Role → Option WlRole
  | .enumerator .Normal => some .ROLE_NORMAL
  | .enumerator .Desktop => some .ROLE_DESKTOP
  | .enumerator .Panel => some .ROLE_PANEL
  | .enumerator .OnScreenDisplay => some .ROLE_ONSCREENDISPLAY
  | .enumerator .Notification => some .ROLE_NOTIFICATION
  | .enumerator .ToolTip => some .ROLE_TOOLTIP
  | .enumerator .CriticalNotification =>
    if wl_proxy_get_version env surface < env.ROLE_CRITICALNOTIFICATION_SINCE_VERSION then
      some .ROLE_NOTIFICATION
    else
      some .ROLE_CRITICALNOTIFICATION
  | .other _ => none

/-- `PlasmaShellSurface::setRole`. -/
def setRole (env : Env) (role : EnumValue Role) (d : Private) (e : Effects) :
    Outcome Unit (Private × Effects) :=
  if !isValid d then .aborted .assertion (d, e)
  else
    match setRole.wlRole env d.surface.m_pointer role with
    | none => .aborted .unreachable (d, e)
    | some wlRole =>
      .returned () ({ d with role := role },
        { e with calls := e.calls ++ [Call.set_role d.surface.m_pointer wlRole] })

/-- The `switch` of `setPanelBehavior`; `none` where the `default` branch runs
into `Q_UNREACHABLE`. -/
def setPanelBehavior.wlRole : EnumValue PanelBehavior → Option WlPanelBehavior
  | .enumerator .AlwaysVisible => some .PANEL_BEHAVIOR_ALWAYS_VISIBLE
  | .enumerator .AutoHide => some .PANEL_BEHAVIOR_AUTO_HIDE
  | .enumerator .WindowsCanCover => some .PANEL_BEHAVIOR_WINDOWS_CAN_COVER
  | .enumerator .WindowsGoBelow => some .PANEL_BEHAVIOR_WINDOWS_GO_BELOW
  | .other _ => none

/-- `PlasmaShellSurface::setPanelBehavior`. -/
def setPanelBehavior (behavior : EnumValue PanelBehavior) (d : Private) (e : Effects) :
    Outcome Unit (Private × Effects) :=
  if !isValid d then .aborted .assertion (d, e)
  else
    match setPanelBehavior.wlRole behavior with
    | none => .aborted .unreachable (d, e)
    | some wlRole =>
      .returned () (d, { e with calls := e.calls ++ [Call.set_panel_behavior d.surface.m_pointer wlRole] })

/-- `PlasmaShellSurface::setSkipTaskbar`. -/
def setSkipTaskbar (skip : Bool) (d : Private) (e : Effects) : Outcome Unit (Private × Effects) :=
  .returned () (d, { e with calls := e.calls ++ [Call.set_skip_taskbar d.surface.m_pointer skip] })

/-- `PlasmaShellSurface::setSkipSwitcher`. -/
def setSkipSwitcher (skip : Bool) (d : Private) (e : Effects) : Outcome Unit (Private × Effects) :=
  .returned () (d, { e with calls := e.calls ++ [Call.set_skip_switcher d.surface.m_pointer skip] })

/-- `PlasmaShellSurface::requestHideAutoHidingPanel`. -/
def requestHideAutoHidingPanel (d : Private) (e : Effects) : Outcome Unit (Private × Effects) :=
  .returned () (d, { e with calls := e.calls ++ [Call.panel_auto_hide_hide d.surface.m_pointer] })

/-- `PlasmaShellSurface::requestShowAutoHidingPanel`. -/
def requestShowAutoHidingPanel (d : Private) (e : Effects) : Outcome Unit (Private × Effects) :=
  .returned () (d, { e with calls := e.calls ++ [Call.panel_auto_hide_show d.surface.m_pointer] })

/-- `PlasmaShellSurface::setPanelTakesFocus`. -/
def setPanelTakesFocus (takesFocus : Bool) (d : Private) (e : Effects) :
    Outcome Unit (Private × Effects) :=
  .returned () (d,
    { e with calls := e.calls ++ [Call.set_panel_takes_focus d.surface.m_pointer takesFocus] })

/-- `PlasmaShellSurface::setVisible`. -/
def setVisible (visible : Bool) (d : Private) (e : Effects) : Outcome Unit (Private × Effects) :=
  .returned () (d, { e with calls := e.calls ++ [Call.set_visible d.surface.m_pointer visible] })

/-- The `switch` of `setWindowType`, `default` branch included. -/
def setWindowType.wlType : EnumValue WindowType → WlWindowType
  | .enumerator .TYPE_WALLPAPER => .WINDOW_TYPE_WALLPAPER
  | .enumerator .TYPE_DESKTOP => .WINDOW_TYPE_DESKTOP
  | .enumerator .TYPE_DIALOG => .WINDOW_TYPE_DIALOG
  | .enumerator .TYPE_SYS_SPLASH => .WINDOW_TYPE_SYS_SPLASH
  | .enumerator .TYPE_SEARCH_BAR => .WINDOW_TYPE_SEARCH_BAR
  | .enumerator .TYPE_NOTIFICATION => .WINDOW_TYPE_NOTIFICATION
  | .enumerator .TYPE_CRITICAL_NOTIFICATION => .WINDOW_TYPE_CRITICAL_NOTIFICATION
  | .enumerator .TYPE_INPUT_METHOD => .WINDOW_TYPE_INPUT_METHOD
  | .enumerator .TYPE_INPUT_METHOD_DIALOG => .WINDOW_TYPE_INPUT_METHOD_DIALOG
  | .enumerator .TYPE_DND => .WINDOW_TYPE_DND
  | .enumerator .TYPE_DOCK => .WINDOW_TYPE_DOCK
  | .enumerator .TYPE_APPLICATION_OVERLAY => .WINDOW_TYPE_APPLICATION_OVERLAY
  | .enumerator .TYPE_STATUS_BAR => .WINDOW_TYPE_STATUS_BAR
  | .enumerator .TYPE_STATUS_BAR_PANEL => .WINDOW_TYPE_STATUS_BAR_PANEL
  | .enumerator .TYPE_TOAST => .WINDOW_TYPE_TOAST
  | .enumerator .TYPE_KEYGUARD => .WINDOW_TYPE_KEYGUARD
  | .enumerator .TYPE_PHONE => .WINDOW_TYPE_PHONE
  | .enumerator .TYPE_SYSTEM_DIALOG => .WINDOW_TYPE_SYSTEM_DIALOG
  | .enumerator .TYPE_SYSTEM_ERROR => .WINDOW_TYPE_SYSTEM_ERROR
  | .enumerator .TYPE_VOICE_INTERACTION => .WINDOW_TYPE_VOICE_INTERACTION
  | .enumerator .TYPE_SCREENSHOT => .WINDOW_TYPE_SCREENSHOT
  | .enumerator .TYPE_BOOT_PROGRESS => .WINDOW_TYPE_BOOT_PROGRESS
  | .enumerator .TYPE_POINTER => .WINDOW_TYPE_POINTER
  | .enumerator .TYPE_LAST_SYS_LAYER => .WINDOW_TYPE_LAST_SYS_LAYER
  | .enumerator .TYPE_BASE_APPLICATION => .WINDOW_TYPE_BASE_APPLICATION
  | .enumerator .TYPE_APPLICATION => .WINDOW_TYPE_APPLICATION
  | .enumerator .TYPE_APPLICATION_STARTING => .WINDOW_TYPE_APPLICATION_STARTING
  | .enumerator .TYPE_LAST_APPLICATION_WINDOW => .WINDOW_TYPE_LAST_APPLICATION_WINDOW
  | .other _ => .WINDOW_TYPE_APPLICATION

/-- `PlasmaShellSurface::setWindowType`. -/
def setWindowType (window_type : EnumValue WindowType) (d : Private) (e : Effects) :
    Outcome Unit (Private × Effects) :=
  if !isValid d then .aborted .assertion (d, e)
  else
    .returned () ({ d with windowType := some window_type },
      { e with calls := e.calls ++
          [Call.set_window_type d.surface.m_pointer (setWindowType.wlType window_type)] })

end PlasmaShellSurface

/-! ## The process: the registry, the allocators, what was sent -/

/-- The state shared by all objects of the process: the static
`PlasmaShellSurface::Private::s_surfaces` (each entry stands for the `Private`
it points to), the effects, the next addresses that `new` and
`org_kde_plasma_shell_get_surface` hand out, and the record `cleared` of the
handles that `PlasmaShell::destroy`, `PlasmaShell::release` and the slots they
trigger have cleared so far, oldest first. -/
structure World where
  s_surfaces : List PlasmaShellSurface.Private
  fx : Effects
  nextObject : ObjectId
  nextProxy : Proxy
  cleared : List Proxy
deriving DecidableEq, Repr

/-- What a statement did to a handle, for the record `cleared`: the proxy the
handle was bound to before, when it is unbound after; nothing otherwise. -/
def clearedHandle (before after : WaylandPointer) : List Proxy :=
  match before.m_pointer, after.m_pointer with
  | some p, none => [p]
  | _, _ => []

/-- Calling a slot of the `PlasmaShellSurface` at address `receiver`: the
slot runs on every entry of the registry with that address (there is one per
live object).  The third component is the record `cleared`: right after the
slot ran on an entry, the handle it cleared there, if any, is appended. -/
def invokeSlot (slot : PlasmaShellSurface.Private → Effects → PlasmaShellSurface.Private × Effects)
    (receiver : ObjectId) :
    List PlasmaShellSurface.Private → Effects → List Proxy →
      List PlasmaShellSurface.Private × Effects × List Proxy
  | [], e, c => ([], e, c)
  | d :: ds, e, c =>
    if d.q = receiver then
      let r := slot d e
      let rest := invokeSlot slot receiver ds r.2 (c ++ clearedHandle d.surface r.1.surface)
      (r.1 :: rest.1, rest.2)
    else
      let rest := invokeSlot slot receiver ds e c
      (d :: rest.1, rest.2)

/-- `Q_EMIT` of a signal whose connections all go to the same slot: the slot is
called on each receiver, synchronously and in the order of the `connect`
calls. -/
def emitSignal (slot : PlasmaShellSurface.Private → Effects → PlasmaShellSurface.Private × Effects) :
    List ObjectId → List PlasmaShellSurface.Private → Effects → List Proxy →
      List PlasmaShellSurface.Private × Effects × List Proxy
  | [], s, e, c => (s, e, c)
  | r :: rs, s, e, c =>
    let step := invokeSlot slot r s e c
    emitSignal slot rs step.1 step.2.1 step.2.2

/-! ## PlasmaShell -/

/-- The data members of `PlasmaShell::Private`. -/
structure PlasmaShell.Private where
  shell : WaylandPointer
  queue : Option QueueId
deriving DecidableEq, Repr

/-- A `PlasmaShell` object: its `d`, and the receivers that `createSurface`
connected to its two signals, in connection order. -/
structure PlasmaShell where
  d : PlasmaShell.Private
  interfaceAboutToBeReleased : List ObjectId
  interfaceAboutToBeDestroyed : List ObjectId
deriving DecidableEq, Repr

namespace PlasmaShell

/-- `PlasmaShell::PlasmaShell`. -/
def fresh : PlasmaShell :=
  { d := { shell := { m_pointer := none }, queue := none }
    interfaceAboutToBeReleased := []
    interfaceAboutToBeDestroyed := [] }

/-- `PlasmaShell::isValid`. -/
def isValid (sh : PlasmaShell) : Bool := sh.d.shell.isValid

/-- `PlasmaShell::setup`. -/
def setup (shell : Option Proxy) (sh : PlasmaShell) : Outcome Unit PlasmaShell :=
  if sh.d.shell.isValid then .aborted .assertion sh
  else if shell.isNone then .aborted .assertion sh
  else
    match sh.d.shell.setup shell with
    | .aborted f p => .aborted f { sh with d := { sh.d with shell := p } }
    | .returned _ p => .returned () { sh with d := { sh.d with shell := p } }

/-- `PlasmaShell::setEventQueue`. -/
def setEventQueue (queue : Option QueueId) (sh : PlasmaShell) : PlasmaShell :=
  { sh with d := { sh.d with queue := queue } }

/-- `PlasmaShell::eventQueue`. -/
def eventQueue (sh : PlasmaShell) : Option QueueId := sh.d.queue

/-- `Q_EMIT interfaceAboutToBeDestroyed()`: `PlasmaShellSurface::destroy` runs
on every connected surface. -/
def emitInterfaceAboutToBeDestroyed (sh : PlasmaShell) (w : World) : World :=
  let r := emitSignal PlasmaShellSurface.destroy sh.interfaceAboutToBeDestroyed w.s_surfaces w.fx
    w.cleared
  { w with s_surfaces := r.1, fx := r.2.1, cleared := r.2.2 }

/-- `Q_EMIT interfaceAboutToBeReleased()`: `PlasmaShellSurface::release` runs
on every connected surface. -/
def emitInterfaceAboutToBeReleased (sh : PlasmaShell) (w : World) : World :=
  let r := emitSignal PlasmaShellSurface.release sh.interfaceAboutToBeReleased w.s_surfaces w.fx
    w.cleared
  { w with s_surfaces := r.1, fx := r.2.1, cleared := r.2.2 }

/-- `PlasmaShell::destroy`.  After `d->shell.destroy()` the handle it cleared
is appended to the record `cleared`. -/
def destroy (sh : PlasmaShell) (w : World) : PlasmaShell × World :=
  if !sh.d.shell.isValid then (sh, w)
  else
    let w1 := emitInterfaceAboutToBeDestroyed sh w
    let shell1 := sh.d.shell.destroy
    ({ sh with d := { sh.d with shell := shell1 } },
      { w1 with cleared := w1.cleared ++ clearedHandle sh.d.shell shell1 })

/-- `PlasmaShell::release`.  After `d->shell.release()` the handle it cleared
is appended to the record `cleared`. -/
def release (sh : PlasmaShell) (w : World) : PlasmaShell × World :=
  if !sh.d.shell.isValid then (sh, w)
  else
    let w1 := emitInterfaceAboutToBeReleased sh w
    let r := sh.d.shell.release Call.shell_destroy w1.fx.calls
    ({ sh with d := { sh.d with shell := r.1 } },
      { w1 with
        fx := { w1.fx with calls := r.2 }
        cleared := w1.cleared ++ clearedHandle sh.d.shell r.1 })

/-- The part of `createSurface` after the lookup: `new PlasmaShellSurface`,
the two `connect` calls, `org_kde_plasma_shell_get_surface`, `addProxy` when a
queue is set, `setup`, and the assignment of `parentSurface`.  The new
`Private` is the last entry of `s_surfaces` from its construction on; it is
written there with the values it has when the call ends. -/
def createSurface.create (surface : WlSurface) (kwS : Option SurfaceId) (sh : PlasmaShell)
    (w : World) : Outcome ObjectId (PlasmaShell × World) :=
  let s := w.nextObject
  let d0 := PlasmaShellSurface.Private.fresh s
  let sh1 : PlasmaShell :=
    { sh with
      interfaceAboutToBeReleased := sh.interfaceAboutToBeReleased ++ [s]
      interfaceAboutToBeDestroyed := sh.interfaceAboutToBeDestroyed ++ [s] }
  let wproxy := w.nextProxy
  let calls1 := w.fx.calls ++ [Call.get_surface sh.d.shell.m_pointer surface wproxy]
  let calls2 :=
    match sh.d.queue with
    | some queue => calls1 ++ [Call.addProxy queue wproxy]
    | none => calls1
  match PlasmaShellSurface.setup (some wproxy) d0 { w.fx with calls := calls2 } with
  | .aborted f (d1, e1) =>
    .aborted f (sh1,
      { s_surfaces := w.s_surfaces ++ [d1], fx := e1
        nextObject := w.nextObject + 1, nextProxy := w.nextProxy + 1, cleared := w.cleared })
  | .returned _ (d1, e1) =>
    .returned s (sh1,
      { s_surfaces := w.s_surfaces ++ [{ d1 with parentSurface := kwS }], fx := e1
        nextObject := w.nextObject + 1, nextProxy := w.nextProxy + 1, cleared := w.cleared })

/-- `PlasmaShell::createSurface(wl_surface *, QObject *)`.  The `parent`
argument only concerns ownership and is left out. -/
def createSurface (env : Env) (surface : WlSurface) (sh : PlasmaShell) (w : World) :
    Outcome ObjectId (PlasmaShell × World) :=
  if !isValid sh then .aborted .assertion (sh, w)
  else
    let kwS := env.Surface_get surface
    match kwS with
    | some k =>
      match PlasmaShellSurface.Private.get (some k) w.s_surfaces with
      | some s => .returned s (sh, w)
      | none => createSurface.create surface kwS sh w
    | none => createSurface.create surface kwS sh w

end PlasmaShell

/-! ## Delivery of events -/

/-- The two events of `org_kde_plasma_surface`. -/
inductive SurfaceEvent where
  | autohide_panel_hidden
  | autohide_panel_shown
deriving DecidableEq, Repr

/-- `PlasmaShellSurface::Private::s_listener`: the callback for each event. -/
def PlasmaShellSurface.Private.s_listener :
    SurfaceEvent → PlasmaShellSurface.Private → Option Proxy → Effects → Outcome Unit Effects
  | .autohide_panel_hidden => PlasmaShellSurface.Private.autoHidingPanelHiddenCallback
  | .autohide_panel_shown => PlasmaShellSurface.Private.autoHidingPanelShownCallback

/-- What libwayland does with an event for `proxy`: it calls the callback of
the listener registered for the proxy, with the user data registered with it
and the proxy.  An event for a proxy without listener is dropped. -/
def dispatchEvent (event : SurfaceEvent) (proxy : Proxy) (w : World) : Outcome Unit World :=
  match w.fx.listeners.find? (fun l => l.1 == proxy) with
  | none => .returned () w
  | some l =>
    match w.s_surfaces.find? (fun d => d.q == l.2) with
    | none => .returned () w
    | some data =>
      match PlasmaShellSurface.Private.s_listener event data (some proxy) w.fx with
      | .returned _ e => .returned () { w with fx := e }
      | .aborted f e => .aborted f { w with fx := e }

/-- Number of calls of the protocol destructor `org_kde_plasma_shell_destroy`
among `calls`. -/
def shellDestructorCalls (calls : List Call) : Nat :=
  (calls.filter (fun c => match c with | .shell_destroy _ => true | _ => false)).length

/-- Number of calls of the protocol destructor `org_kde_plasma_surface_destroy`
among `calls`. -/
def surfaceDestructorCalls (calls : List Call) : Nat :=
  (calls.filter (fun c => match c with | .surface_destroy _ => true | _ => false)).length

/-! ## The documented tables (from the specification) -/

/-- The specification's table for `setRole`: each role goes to the protocol
constant of the same name, except `CriticalNotification` on a surface object
whose version is below the since-version of that constant, which goes to
`NOTIFICATION`. -/
def Spec.documentedRoleCode (sinceVersion version : Nat) (r : Role) : WlRole :=
  if r = Role.CriticalNotification ∧ version < sinceVersion then WlRole.ROLE_NOTIFICATION
  else
    [WlRole.ROLE_NORMAL, WlRole.ROLE_DESKTOP, WlRole.ROLE_PANEL, WlRole.ROLE_ONSCREENDISPLAY,
      WlRole.ROLE_NOTIFICATION, WlRole.ROLE_TOOLTIP, WlRole.ROLE_CRITICALNOTIFICATION].getD
      r.toCtorIdx WlRole.ROLE_NORMAL

/-- The specification's table for `setWindowType`: the n-th window type goes
to the n-th protocol constant, both listed in the same order of names. -/
def Spec.documentedWindowTypeCode (t : WindowType) : WlWindowType :=
  [WlWindowType.WINDOW_TYPE_WALLPAPER, WlWindowType.WINDOW_TYPE_DESKTOP,
    WlWindowType.WINDOW_TYPE_DIALOG, WlWindowType.WINDOW_TYPE_SYS_SPLASH,
    WlWindowType.WINDOW_TYPE_SEARCH_BAR, WlWindowType.WINDOW_TYPE_NOTIFICATION,
    WlWindowType.WINDOW_TYPE_CRITICAL_NOTIFICATION, WlWindowType.WINDOW_TYPE_INPUT_METHOD,
    WlWindowType.WINDOW_TYPE_INPUT_METHOD_DIALOG, WlWindowType.WINDOW_TYPE_DND,
    WlWindowType.WINDOW_TYPE_DOCK, WlWindowType.WINDOW_TYPE_APPLICATION_OVERLAY,
    WlWindowType.WINDOW_TYPE_STATUS_BAR, WlWindowType.WINDOW_TYPE_STATUS_BAR_PANEL,
    WlWindowType.WINDOW_TYPE_TOAST, WlWindowType.WINDOW_TYPE_KEYGUARD,
    WlWindowType.WINDOW_TYPE_PHONE, WlWindowType.WINDOW_TYPE_SYSTEM_DIALOG,
    WlWindowType.WINDOW_TYPE_SYSTEM_ERROR, WlWindowType.WINDOW_TYPE_VOICE_INTERACTION,
    WlWindowType.WINDOW_TYPE_SCREENSHOT, WlWindowType.WINDOW_TYPE_BOOT_PROGRESS,
    WlWindowType.WINDOW_TYPE_POINTER, WlWindowType.WINDOW_TYPE_LAST_SYS_LAYER,
    WlWindowType.WINDOW_TYPE_BASE_APPLICATION, WlWindowType.WINDOW_TYPE_APPLICATION,
    WlWindowType.WINDOW_TYPE_APPLICATION_STARTING,
    WlWindowType.WINDOW_TYPE_LAST_APPLICATION_WINDOW].getD t.toCtorIdx
    WlWindowType.WINDOW_TYPE_APPLICATION

/-! ## Closed forms used in the statements -/

/-- A surface object with its handle cleared, all other members kept. -/
def PlasmaShellSurface.Private.unbound (d : PlasmaShellSurface.Private) :
    PlasmaShellSurface.Private :=
  { d with surface := { m_pointer := none } }

/-- The registry with the handle cleared in every entry whose address is among
`receivers`. -/
def unbindAll (receivers : List ObjectId) (s : List PlasmaShellSurface.Private) :
    List PlasmaShellSurface.Private :=
  s.map (fun d => if d.q ∈ receivers then d.unbound else d)

/-- One `org_kde_plasma_surface_destroy` per entry of the registry that has the
address `receiver` and is still bound, in registry order. -/
def releaseCallsOf (receiver : ObjectId) (s : List PlasmaShellSurface.Private) : List Call :=
  s.filterMap (fun d => if d.q = receiver then d.surface.m_pointer.map Call.surface_destroy else none)

/-- The destructor calls of the receivers one after the other, each on the
registry the earlier ones left. -/
def releaseCalls : List ObjectId → List PlasmaShellSurface.Private → List Call
  | [], _ => []
  | r :: rs, s => releaseCallsOf r s ++ releaseCalls rs (unbindAll [r] s)

/-- The handles that the slots `destroy` and `release` clear when called on
`receiver`: that of each entry of the registry that has the address `receiver`
and is still bound, in registry order. -/
def clearedOf (receiver : ObjectId) (s : List PlasmaShellSurface.Private) : List Proxy :=
  s.filterMap (fun d => if d.q = receiver then d.surface.m_pointer else none)

/-- The handles cleared for the receivers one after the other, each on the
registry the earlier ones left. -/
def clearedBy : List ObjectId → List PlasmaShellSurface.Private → List Proxy
  | [], _ => []
  | r :: rs, s => clearedOf r s ++ clearedBy rs (unbindAll [r] s)

/-- The surface at address 0 as its constructor leaves it: never set up. -/
def Sample.neverSetUp : PlasmaShellSurface.Private := PlasmaShellSurface.Private.fresh 0

/-! ## Sample inputs -/

/-- A sample environment: every `wl_surface` `n` belongs to the `Surface` `n`,
every proxy has version 5, and `CriticalNotification` exists since version 6. -/
def Sample.env : Env :=
  { Surface_get := fun wl => some wl
    Surface_native := fun k => k
    proxy_version := fun _ => 5
    ROLE_CRITICALNOTIFICATION_SINCE_VERSION := 6 }

/-- No call made, no listener registered, no signal emitted. -/
def Sample.quiet : Effects := { calls := [], listeners := [], signals := [] }

/-- A surface object at address 1 bound to the proxy 7. -/
def Sample.bound : PlasmaShellSurface.Private :=
  { PlasmaShellSurface.Private.fresh 1 with surface := { m_pointer := some 7 } }

/-- A second surface object, at address 2, bound to the proxy 8. -/
def Sample.boundToo : PlasmaShellSurface.Private :=
  { PlasmaShellSurface.Private.fresh 2 with surface := { m_pointer := some 8 } }

/-- A buffer that was handed to the compositor and not released yet. -/
def Sample.buffer : Buffer :=
  { m_shm := 0, m_nativeBuffer := some 3, m_released := false, m_size := (4, 2), m_stride := 16
    m_offset := 0, m_used := false }

/-- A shell bound to the proxy 3, without event queue and without surfaces. -/
def Sample.shell : PlasmaShell :=
  { PlasmaShell.fresh with d := { shell := { m_pointer := some 3 }, queue := none } }

/-- A process in which nothing happened yet. -/
def Sample.world : World :=
  { s_surfaces := [], fx := Sample.quiet, nextObject := 1, nextProxy := 7, cleared := [] }

/-- The sample shell and process after `createSurface` for the `wl_surface` 5:
one surface object, at address 1, bound to proxy 7 and connected to the shell. -/
def Sample.afterCreate : PlasmaShell × World :=
  (PlasmaShell.createSurface Sample.env 5 Sample.shell Sample.world).state

/-! ## Buffer: the two flags -/

/-- C8: `setReleased(true)` makes `isReleased()` true whatever `isUsed()` is and
leaves `isUsed()`, `size()` and `stride()` as they were; `setUsed(u)` makes
`isUsed()` equal `u` and leaves `isReleased()`, `size()` and `stride()` as they
were; `setUsed(true)` followed by `setReleased(true)` gives both flags true. -/
theorem Buffer.released_and_used_are_independent (b : Buffer) (u : Bool) :
    ((b.setReleased true).isReleased = true
      ∧ (b.setReleased true).isUsed = b.isUsed
      ∧ (b.setReleased true).size = b.size
      ∧ (b.setReleased true).stride = b.stride)
    ∧ ((b.setUsed u).isUsed = u
      ∧ (b.setUsed u).isReleased = b.isReleased
      ∧ (b.setUsed u).size = b.size
      ∧ (b.setUsed u).stride = b.stride)
    ∧ (((b.setUsed true).setReleased true).isReleased = true
      ∧ ((b.setUsed true).setReleased true).isUsed = true) := by
  refine ⟨⟨rfl, rfl, rfl, rfl⟩, ⟨rfl, rfl, rfl, rfl⟩, rfl, rfl⟩

/-! ## setRole and setWindowType -/

namespace PlasmaShellSurface

/-- The `switch` of `setRole` agrees with the documented table on every
enumerator. -/
theorem setRole.wlRole_enumerator (env : Env) (p : Proxy) (r : Role) :
    setRole.wlRole env (some p) (.enumerator r)
      = some (Spec.documentedRoleCode env.ROLE_CRITICALNOTIFICATION_SINCE_VERSION
          (env.proxy_version p) r) := by
  cases r <;> simp [setRole.wlRole, Spec.documentedRoleCode, wl_proxy_get_version, Role.toCtorIdx]
  split <;> rfl

/-- The `switch` of `setWindowType` agrees with the documented table on every
enumerator. -/
theorem setWindowType.wlType_enumerator (t : WindowType) :
    setWindowType.wlType (.enumerator t) = Spec.documentedWindowTypeCode t := by
  cases t <;> rfl

/-- A bound handle is valid. -/
theorem isValid_of_bound {d : Private} {p : Proxy} (h : d.surface.m_pointer = some p) :
    isValid d = true := by
  simp [isValid, WaylandPointer.isValid, h]

/-- What `setRole` does on a bound handle, for an enumerator. -/
theorem setRole_on_bound_handle (env : Env) (r : Role) (d : Private) (e : Effects)
    (p : Proxy) (hbound : d.surface.m_pointer = some p) :
    setRole env (.enumerator r) d e
      = .returned () ({ d with role := .enumerator r },
          { e with calls := e.calls ++ [Call.set_role (some p)
              (Spec.documentedRoleCode env.ROLE_CRITICALNOTIFICATION_SINCE_VERSION
                (env.proxy_version p) r)] }) := by
  simp [setRole, isValid_of_bound hbound, hbound, setRole.wlRole_enumerator]

/-- C2: on a valid surface bound to a proxy of version `v`, `setRole(r)` returns
after exactly one `set_role` request, sent on that proxy, whose code is the
constant named like `r`, or `NOTIFICATION` for `CriticalNotification` when `v`
is below the since-version of `CRITICALNOTIFICATION`. -/
theorem setRole_sends_documented_code (env : Env) (r : Role) (d : Private) (e : Effects)
    (p : Proxy) (v : Nat) (hbound : d.surface.m_pointer = some p)
    (hversion : env.proxy_version p = v) :
    setRole env (.enumerator r) d e
      = .returned () ({ d with role := .enumerator r },
          { e with calls := e.calls ++ [Call.set_role (some p)
              (Spec.documentedRoleCode env.ROLE_CRITICALNOTIFICATION_SINCE_VERSION v r)] }) := by
  subst hversion
  exact setRole_on_bound_handle env r d e p hbound

/-- Witness of C2: `CriticalNotification` on a proxy of version 5, with
since-version 6, sends `NOTIFICATION`. -/
theorem setRole_sends_documented_code_witness :
    Sample.bound.surface.m_pointer = some 7 ∧ Sample.env.proxy_version 7 = 5
    ∧ setRole Sample.env (.enumerator .CriticalNotification) Sample.bound Sample.quiet
      = .returned () ({ Sample.bound with role := .enumerator .CriticalNotification },
          { Sample.quiet with calls := [Call.set_role (some 7) WlRole.ROLE_NOTIFICATION] }) :=
  ⟨rfl, rfl,
    setRole_sends_documented_code Sample.env .CriticalNotification Sample.bound Sample.quiet 7 5
      rfl rfl⟩

/-- C3: on a valid surface, `setWindowType(t)` returns after exactly one
`set_window_type` request, sent on the bound proxy, whose code is the constant
named like `t`; no protocol version enters; and two enumerators that get the
same code are the same enumerator. -/
theorem setWindowType_sends_documented_code (t : WindowType) (d : Private) (e : Effects)
    (p : Proxy) (hbound : d.surface.m_pointer = some p) :
    setWindowType (.enumerator t) d e
      = .returned () ({ d with windowType := some (.enumerator t) },
          { e with calls := e.calls ++
              [Call.set_window_type (some p) (Spec.documentedWindowTypeCode t)] })
    ∧ (∀ t2 : WindowType,
        setWindowType.wlType (.enumerator t) = setWindowType.wlType (.enumerator t2) → t = t2)
    ∧ (∀ t2 : WindowType, t2 ≠ t →
        Spec.documentedWindowTypeCode t ≠ Spec.documentedWindowTypeCode t2) := by
  refine ⟨?_, ?_, ?_⟩
  · simp [setWindowType, isValid_of_bound hbound, hbound, setWindowType.wlType_enumerator]
  · intro t2 h
    cases t <;> cases t2 <;> first | rfl | (simp [setWindowType.wlType] at h)
  · intro t2 hne h
    apply hne
    cases t <;> cases t2 <;> first | rfl | (exact absurd h (by decide))

/-- Witness of C3: `TYPE_DOCK` on the surface bound to proxy 7. -/
theorem setWindowType_sends_documented_code_witness :
    Sample.bound.surface.m_pointer = some 7
    ∧ setWindowType (.enumerator .TYPE_DOCK) Sample.bound Sample.quiet
      = .returned () ({ Sample.bound with windowType := some (.enumerator .TYPE_DOCK) },
          { Sample.quiet with
            calls := [Call.set_window_type (some 7) WlWindowType.WINDOW_TYPE_DOCK] }) :=
  ⟨rfl, (setWindowType_sends_documented_code .TYPE_DOCK Sample.bound Sample.quiet 7 rfl).1⟩

/-- C4, the code at an unbound handle: on a surface that was never set up,
`setPosition`, `setRole`, `setPanelBehavior` and `setWindowType` stop on the
validity assertion with nothing sent, while `setSkipTaskbar`,
`setSkipSwitcher`, `requestHideAutoHidingPanel`, `requestShowAutoHidingPanel`,
`setPanelTakesFocus` and `setVisible` reach no assertion: each returns after
calling its protocol function with the null pointer. -/
theorem unbound_handle_is_asserted_by_four_requests_only :
    isValid Sample.neverSetUp = false
    ∧ setPosition 10 20 Sample.neverSetUp Sample.quiet
        = .aborted .assertion (Sample.neverSetUp, Sample.quiet)
    ∧ setRole Sample.env (.enumerator .Panel) Sample.neverSetUp Sample.quiet
        = .aborted .assertion (Sample.neverSetUp, Sample.quiet)
    ∧ setPanelBehavior (.enumerator .AutoHide) Sample.neverSetUp Sample.quiet
        = .aborted .assertion (Sample.neverSetUp, Sample.quiet)
    ∧ setWindowType (.enumerator .TYPE_DOCK) Sample.neverSetUp Sample.quiet
        = .aborted .assertion (Sample.neverSetUp, Sample.quiet)
    ∧ setSkipTaskbar true Sample.neverSetUp Sample.quiet
        = .returned () (Sample.neverSetUp,
            { Sample.quiet with calls := [Call.set_skip_taskbar none true] })
    ∧ setSkipSwitcher true Sample.neverSetUp Sample.quiet
        = .returned () (Sample.neverSetUp,
            { Sample.quiet with calls := [Call.set_skip_switcher none true] })
    ∧ requestHideAutoHidingPanel Sample.neverSetUp Sample.quiet
        = .returned () (Sample.neverSetUp,
            { Sample.quiet with calls := [Call.panel_auto_hide_hide none] })
    ∧ requestShowAutoHidingPanel Sample.neverSetUp Sample.quiet
        = .returned () (Sample.neverSetUp,
            { Sample.quiet with calls := [Call.panel_auto_hide_show none] })
    ∧ setPanelTakesFocus true Sample.neverSetUp Sample.quiet
        = .returned () (Sample.neverSetUp,
            { Sample.quiet with calls := [Call.set_panel_takes_focus none true] })
    ∧ setVisible true Sample.neverSetUp Sample.quiet
        = .returned () (Sample.neverSetUp,
            { Sample.quiet with calls := [Call.set_visible none true] }) := by
  refine ⟨rfl, rfl, rfl, rfl, rfl, rfl, rfl, rfl, rfl, rfl, rfl⟩

/-- C5 as stated fails for `setWindowType`: on the valid sample surface the
value 999, which the `switch` does not list, reaches no assertion; the call
returns after sending `set_window_type` with the code of `APPLICATION`. -/
theorem setWindowType_unlisted_value_is_sent_as_application :
    setWindowType (.other 999) Sample.bound Sample.quiet
        = .returned () ({ Sample.bound with windowType := some (.other 999) },
            { Sample.quiet with
              calls := [Call.set_window_type (some 7) WlWindowType.WINDOW_TYPE_APPLICATION] })
    ∧ ¬ ∃ f s, setWindowType (.other 999) Sample.bound Sample.quiet = .aborted f s := by
  refine ⟨rfl, ?_⟩
  rintro ⟨f, s, h⟩
  have hrun : setWindowType (.other 999) Sample.bound Sample.quiet
      = .returned () ({ Sample.bound with windowType := some (.other 999) },
          { Sample.quiet with
            calls := [Call.set_window_type (some 7) WlWindowType.WINDOW_TYPE_APPLICATION] }) := rfl
  rw [hrun] at h
  cases h

/-- C5, amended: on a valid surface, a value that the `switch` of `setRole` does
not list stops the call on `Q_UNREACHABLE` with nothing sent and the role
unchanged; a value that the `switch` of `setWindowType` does not list takes
the `default` branch: the call returns after exactly one `set_window_type`
request with the code of `APPLICATION`, and the value is stored. -/
theorem unlisted_enum_values (env : Env) (raw : Int) (d : Private) (e : Effects) (p : Proxy)
    (hbound : d.surface.m_pointer = some p) :
    setRole env (.other raw) d e = .aborted .unreachable (d, e)
    ∧ setWindowType (.other raw) d e
        = .returned () ({ d with windowType := some (.other raw) },
            { e with calls := e.calls ++
                [Call.set_window_type (some p) WlWindowType.WINDOW_TYPE_APPLICATION] }) := by
  constructor
  · simp [setRole, isValid_of_bound hbound, setRole.wlRole]
  · simp [setWindowType, isValid_of_bound hbound, hbound, setWindowType.wlType]

/-- Witness of the amended C5 on the sample surface bound to proxy 7. -/
theorem unlisted_enum_values_witness :
    Sample.bound.surface.m_pointer = some 7
    ∧ setRole Sample.env (.other 999) Sample.bound Sample.quiet
        = .aborted .unreachable (Sample.bound, Sample.quiet)
    ∧ setWindowType (.other 999) Sample.bound Sample.quiet
        = .returned () ({ Sample.bound with windowType := some (.other 999) },
            { Sample.quiet with
              calls := [Call.set_window_type (some 7) WlWindowType.WINDOW_TYPE_APPLICATION] }) :=
  ⟨rfl, unlisted_enum_values Sample.env 999 Sample.bound Sample.quiet 7 rfl⟩

end PlasmaShellSurface

/-! ## Teardown: what the slots and the signals do -/

/-- `PlasmaShellSurface::destroy` clears the handle and calls nothing. -/
theorem PlasmaShellSurface.destroy_eq (d : PlasmaShellSurface.Private) (e : Effects) :
    PlasmaShellSurface.destroy d e = (d.unbound, e) := by
  rcases d with ⟨⟨_ | p⟩, _, _, _, _, _⟩ <;> rfl

/-- `PlasmaShellSurface::release` clears the handle and calls the protocol
destructor when the handle was bound. -/
theorem PlasmaShellSurface.release_eq (d : PlasmaShellSurface.Private) (e : Effects) :
    PlasmaShellSurface.release d e
      = (d.unbound,
          { e with calls := e.calls ++ (d.surface.m_pointer.map Call.surface_destroy).toList }) := by
  rcases d with ⟨⟨_ | p⟩, _, _, _, _, _⟩ <;>
    simp [PlasmaShellSurface.release, WaylandPointer.release,
      PlasmaShellSurface.Private.unbound]

/-- The slot `destroy` on one receiver. -/
theorem invokeSlot_destroy (r : ObjectId) (s : List PlasmaShellSurface.Private) (e : Effects)
    (c : List Proxy) :
    invokeSlot PlasmaShellSurface.destroy r s e c = (unbindAll [r] s, e, c ++ clearedOf r s) := by
  induction s generalizing e c with
  | nil => simp [invokeSlot, unbindAll, clearedOf]
  | cons d ds ih =>
    by_cases h : d.q = r
    · cases hp : d.surface.m_pointer <;>
        simp [invokeSlot, h, ih, unbindAll, clearedOf, PlasmaShellSurface.destroy_eq, hp,
          clearedHandle, PlasmaShellSurface.Private.unbound]
    · simp [invokeSlot, h, ih, unbindAll, clearedOf]

/-- The slot `release` on one receiver. -/
theorem invokeSlot_release (r : ObjectId) (s : List PlasmaShellSurface.Private) (e : Effects)
    (c : List Proxy) :
    invokeSlot PlasmaShellSurface.release r s e c
      = (unbindAll [r] s, { e with calls := e.calls ++ releaseCallsOf r s },
          c ++ clearedOf r s) := by
  induction s generalizing e c with
  | nil => simp [invokeSlot, unbindAll, releaseCallsOf, clearedOf]
  | cons d ds ih =>
    by_cases h : d.q = r
    · cases hp : d.surface.m_pointer <;>
        simp [invokeSlot, h, ih, unbindAll, releaseCallsOf, clearedOf,
          PlasmaShellSurface.release_eq, hp, clearedHandle, PlasmaShellSurface.Private.unbound]
    · simp [invokeSlot, h, ih, unbindAll, releaseCallsOf, clearedOf]

/-- Clearing the handles of `r` and then of `rs` is clearing those of
`r :: rs`. -/
theorem unbindAll_cons (r : ObjectId) (rs : List ObjectId)
    (s : List PlasmaShellSurface.Private) :
    unbindAll rs (unbindAll [r] s) = unbindAll (r :: rs) s := by
  induction s with
  | nil => rfl
  | cons d ds ih =>
    simp only [unbindAll, List.map_cons, List.map_map] at ih ⊢
    refine congrArg₂ _ ?_ ih
    by_cases h1 : d.q = r
    · by_cases h2 : d.q ∈ rs <;>
        simp [h1, h2, PlasmaShellSurface.Private.unbound]
    · by_cases h2 : d.q ∈ rs <;> simp [h1, h2, PlasmaShellSurface.Private.unbound]

/-- Emitting a signal connected to `destroy`. -/
theorem emitSignal_destroy (rs : List ObjectId) (s : List PlasmaShellSurface.Private)
    (e : Effects) (c : List Proxy) :
    emitSignal PlasmaShellSurface.destroy rs s e c = (unbindAll rs s, e, c ++ clearedBy rs s) := by
  induction rs generalizing s e c with
  | nil => simp [emitSignal, unbindAll, clearedBy]
  | cons r rs ih =>
    simp [emitSignal, invokeSlot_destroy, ih, unbindAll_cons, clearedBy, List.append_assoc]

/-- Emitting a signal connected to `release`. -/
theorem emitSignal_release (rs : List ObjectId) (s : List PlasmaShellSurface.Private)
    (e : Effects) (c : List Proxy) :
    emitSignal PlasmaShellSurface.release rs s e c
      = (unbindAll rs s, { e with calls := e.calls ++ releaseCalls rs s },
          c ++ clearedBy rs s) := by
  induction rs generalizing s e c with
  | nil => simp [emitSignal, unbindAll, releaseCalls, clearedBy]
  | cons r rs ih =>
    simp [emitSignal, invokeSlot_release, ih, unbindAll_cons, releaseCalls, clearedBy,
      List.append_assoc]

/-- The destructor calls of one `release` slot are made on the handles it
clears, in the same order. -/
theorem releaseCallsOf_eq_map (r : ObjectId) (s : List PlasmaShellSurface.Private) :
    releaseCallsOf r s = (clearedOf r s).map Call.surface_destroy := by
  induction s with
  | nil => rfl
  | cons d ds ih =>
    simp only [releaseCallsOf, clearedOf] at ih
    by_cases h : d.q = r
    · cases hp : d.surface.m_pointer <;>
        simp [releaseCallsOf, clearedOf, List.filterMap_cons, h, hp, ih]
    · simp [releaseCallsOf, clearedOf, List.filterMap_cons, h, ih]

/-- The destructor calls of an emitted `interfaceAboutToBeReleased` are made on
the handles it clears, in the same order. -/
theorem releaseCalls_eq_map (rs : List ObjectId) (s : List PlasmaShellSurface.Private) :
    releaseCalls rs s = (clearedBy rs s).map Call.surface_destroy := by
  induction rs generalizing s with
  | nil => rfl
  | cons r rs ih => simp [releaseCalls, clearedBy, releaseCallsOf_eq_map, ih]

/-- The calls of one `release` slot are surface destructors. -/
theorem releaseCallsOf_are_surface_destructors (r : ObjectId)
    (s : List PlasmaShellSurface.Private) :
    ∀ c ∈ releaseCallsOf r s, ∃ a, c = Call.surface_destroy a := by
  intro c hc
  simp only [releaseCallsOf, List.mem_filterMap] at hc
  obtain ⟨d, _, hd⟩ := hc
  by_cases h : d.q = r
  · cases hp : d.surface.m_pointer with
    | none => simp [h, hp] at hd
    | some a => exact ⟨a, by simp [h, hp] at hd; exact hd.symm⟩
  · simp [h] at hd

/-- The calls of an emitted `interfaceAboutToBeReleased` are surface
destructors. -/
theorem releaseCalls_are_surface_destructors (rs : List ObjectId)
    (s : List PlasmaShellSurface.Private) :
    ∀ c ∈ releaseCalls rs s, ∃ a, c = Call.surface_destroy a := by
  induction rs generalizing s with
  | nil => intro c hc; simp [releaseCalls] at hc
  | cons r rs ih =>
    intro c hc
    simp only [releaseCalls, List.mem_append] at hc
    rcases hc with hc | hc
    · exact releaseCallsOf_are_surface_destructors r s c hc
    · exact ih _ c hc

/-- Surface destructors do not count as shell destructors. -/
theorem shellDestructorCalls_append_surface_destructors (calls ds : List Call)
    (h : ∀ c ∈ ds, ∃ a, c = Call.surface_destroy a) :
    shellDestructorCalls (calls ++ ds) = shellDestructorCalls calls := by
  induction ds generalizing calls with
  | nil => simp
  | cons c ds ih =>
    obtain ⟨a, rfl⟩ := h _ (List.mem_cons_self _ _)
    have := ih (calls ++ [Call.surface_destroy a]) (fun c hc => h c (List.mem_cons_of_mem _ hc))
    simp only [List.append_assoc, List.singleton_append] at this
    rw [this]
    simp [shellDestructorCalls, List.filter_append]

/-- Destructor calls of one `release` slot for the proxy `a`: as many as
entries with the receiver's address bound to `a`. -/
theorem releaseCallsOf_count (r : ObjectId) (a : Proxy) (s : List PlasmaShellSurface.Private) :
    (releaseCallsOf r s).count (Call.surface_destroy a)
      = s.countP (fun d => decide (d.q = r) && decide (d.surface.m_pointer = some a)) := by
  induction s with
  | nil => rfl
  | cons d ds ih =>
    simp only [releaseCallsOf] at ih
    by_cases h : d.q = r
    · cases hp : d.surface.m_pointer with
      | none => simp [releaseCallsOf, List.filterMap_cons, List.countP_cons, h, hp, ih]
      | some b =>
        by_cases hab : b = a
        · simp [releaseCallsOf, List.filterMap_cons, List.countP_cons, h, hp, ih, hab]
        · simp [releaseCallsOf, List.filterMap_cons, List.countP_cons, h, hp, ih, hab,
            List.count_cons]
    · simp [releaseCallsOf, List.filterMap_cons, List.countP_cons, h, ih]

/-- After the slot ran on `r`, the entries bound to `a` are those of other
addresses that were bound to `a`. -/
theorem unbindAll_singleton_countP (r : ObjectId) (a : Proxy) (rs : List ObjectId)
    (s : List PlasmaShellSurface.Private) :
    (unbindAll [r] s).countP (fun d => decide (d.q ∈ rs) && decide (d.surface.m_pointer = some a))
      = s.countP (fun d => !decide (d.q = r) &&
          (decide (d.q ∈ rs) && decide (d.surface.m_pointer = some a))) := by
  induction s with
  | nil => rfl
  | cons d ds ih =>
    simp only [unbindAll, List.map_cons] at ih ⊢
    rw [List.countP_cons, List.countP_cons, ih]
    by_cases h : d.q = r
    · simp [h, PlasmaShellSurface.Private.unbound]
    · simp [h]

/-- Splitting the connected entries by the first receiver. -/
theorem countP_split_first_receiver (r : ObjectId) (a : Proxy) (rs : List ObjectId)
    (s : List PlasmaShellSurface.Private) :
    s.countP (fun d => decide (d.q = r) && decide (d.surface.m_pointer = some a))
      + s.countP (fun d => !decide (d.q = r) &&
          (decide (d.q ∈ rs) && decide (d.surface.m_pointer = some a)))
      = s.countP (fun d => decide (d.q ∈ r :: rs) && decide (d.surface.m_pointer = some a)) := by
  induction s with
  | nil => rfl
  | cons d ds ih =>
    rw [List.countP_cons, List.countP_cons, List.countP_cons, ← ih]
    by_cases h : d.q = r <;> by_cases h2 : d.q ∈ rs <;>
      by_cases h3 : d.surface.m_pointer = some a <;> simp [h, h2, h3] <;> omega

/-- Destructor calls of an emitted `interfaceAboutToBeReleased` for the proxy
`a`: as many as connected entries bound to `a`. -/
theorem releaseCalls_count (a : Proxy) (rs : List ObjectId)
    (s : List PlasmaShellSurface.Private) :
    (releaseCalls rs s).count (Call.surface_destroy a)
      = s.countP (fun d => decide (d.q ∈ rs) && decide (d.surface.m_pointer = some a)) := by
  induction rs generalizing s with
  | nil => simp [releaseCalls]
  | cons r rs ih =>
    rw [releaseCalls, List.count_append, releaseCallsOf_count, ih, unbindAll_singleton_countP,
      countP_split_first_receiver]

/-- Connected entries are unbound after the handles of the receivers were
cleared. -/
theorem unbindAll_invalid (rs : List ObjectId) (s : List PlasmaShellSurface.Private) :
    ∀ d ∈ unbindAll rs s, d.q ∈ rs → PlasmaShellSurface.isValid d = false := by
  intro d hd hq
  simp only [unbindAll, List.mem_map] at hd
  obtain ⟨d0, _, rfl⟩ := hd
  by_cases h : d0.q ∈ rs
  · simp [h, PlasmaShellSurface.Private.unbound, PlasmaShellSurface.isValid,
      WaylandPointer.isValid]
  · simp only [h, if_false] at hq

/-- C6: with the destructors recorded as calls.  On a bound surface handle,
`destroy()` unbinds it and makes no call, `release()` unbinds it and calls
`org_kde_plasma_surface_destroy` exactly once, on the bound proxy.  On a bound
shell handle, `destroy()` unbinds it and makes no call, `release()` unbinds it
and calls `org_kde_plasma_shell_destroy` exactly once, on the bound proxy, as
the last call.  On an unbound handle of either class, `destroy()` and
`release()` change nothing and call nothing. -/
theorem destroy_never_and_release_once_calls_the_destructor
    (d : PlasmaShellSurface.Private) (e : Effects) (p : Proxy)
    (sh : PlasmaShell) (w : World) (ps : Proxy)
    (hsurface : d.surface.m_pointer = some p) (hshell : sh.d.shell.m_pointer = some ps) :
    (PlasmaShellSurface.isValid (PlasmaShellSurface.destroy d e).1 = false
      ∧ (PlasmaShellSurface.destroy d e).2 = e)
    ∧ (PlasmaShellSurface.isValid (PlasmaShellSurface.release d e).1 = false
      ∧ (PlasmaShellSurface.release d e).2.calls = e.calls ++ [Call.surface_destroy p]
      ∧ surfaceDestructorCalls (PlasmaShellSurface.release d e).2.calls
          = surfaceDestructorCalls e.calls + 1)
    ∧ (∀ (d0 : PlasmaShellSurface.Private) (e0 : Effects), d0.surface.m_pointer = none →
        PlasmaShellSurface.destroy d0 e0 = (d0, e0) ∧ PlasmaShellSurface.release d0 e0 = (d0, e0))
    ∧ ((PlasmaShell.destroy sh w).1.isValid = false
      ∧ (PlasmaShell.destroy sh w).2.fx.calls = w.fx.calls)
    ∧ ((PlasmaShell.release sh w).1.isValid = false
      ∧ shellDestructorCalls (PlasmaShell.release sh w).2.fx.calls
          = shellDestructorCalls w.fx.calls + 1
      ∧ ∃ ds, (PlasmaShell.release sh w).2.fx.calls = w.fx.calls ++ ds ++ [Call.shell_destroy ps]
          ∧ shellDestructorCalls ds = 0)
    ∧ (∀ (sh0 : PlasmaShell) (w0 : World), sh0.d.shell.m_pointer = none →
        PlasmaShell.destroy sh0 w0 = (sh0, w0) ∧ PlasmaShell.release sh0 w0 = (sh0, w0)) := by
  have hv : sh.d.shell.isValid = true := by simp [WaylandPointer.isValid, hshell]
  refine ⟨⟨?_, ?_⟩, ⟨?_, ?_, ?_⟩, ?_, ⟨?_, ?_⟩, ⟨?_, ?_, ?_⟩, ?_⟩
  · simp [PlasmaShellSurface.destroy_eq, PlasmaShellSurface.Private.unbound,
      PlasmaShellSurface.isValid, WaylandPointer.isValid]
  · simp [PlasmaShellSurface.destroy_eq]
  · simp [PlasmaShellSurface.release_eq, PlasmaShellSurface.Private.unbound,
      PlasmaShellSurface.isValid, WaylandPointer.isValid]
  · simp [PlasmaShellSurface.release_eq, hsurface]
  · simp [PlasmaShellSurface.release_eq, hsurface, surfaceDestructorCalls,
      List.filter_append]
  · intro d0 e0 h0
    rcases d0 with ⟨⟨ptr⟩, _, _, _, _, _⟩
    simp only at h0
    subst h0
    simp [PlasmaShellSurface.destroy_eq, PlasmaShellSurface.release_eq,
      PlasmaShellSurface.Private.unbound]
  · simp [PlasmaShell.destroy, hv, PlasmaShell.isValid, WaylandPointer.destroy, hshell,
      WaylandPointer.isValid]
  · simp [PlasmaShell.destroy, hv, PlasmaShell.emitInterfaceAboutToBeDestroyed,
      emitSignal_destroy]
  · simp [PlasmaShell.release, hv, PlasmaShell.isValid, WaylandPointer.release, hshell,
      WaylandPointer.isValid]
  · simp only [PlasmaShell.release, hv, PlasmaShell.emitInterfaceAboutToBeReleased,
      emitSignal_release, WaylandPointer.release, hshell, Bool.not_true, Bool.false_eq_true,
      if_false]
    rw [shellDestructorCalls, List.filter_append, List.length_append, ← shellDestructorCalls,
      shellDestructorCalls_append_surface_destructors _ _
        (releaseCalls_are_surface_destructors _ _)]
    rfl
  · refine ⟨releaseCalls sh.interfaceAboutToBeReleased w.s_surfaces, ?_, ?_⟩
    · simp [PlasmaShell.release, hv, PlasmaShell.emitInterfaceAboutToBeReleased,
        emitSignal_release, WaylandPointer.release, hshell]
    · have := shellDestructorCalls_append_surface_destructors []
        (releaseCalls sh.interfaceAboutToBeReleased w.s_surfaces)
        (releaseCalls_are_surface_destructors _ _)
      simpa [shellDestructorCalls] using this
  · intro sh0 w0 h0
    simp [PlasmaShell.destroy, PlasmaShell.release, WaylandPointer.isValid, h0]

/-- Witness of C6 on the sample surface (proxy 7) and on the sample shell
(proxy 3) after it created one surface: `release()` of the surface calls its
destructor once, `destroy()` of the shell calls nothing. -/
theorem destroy_never_and_release_once_calls_the_destructor_witness :
    Sample.bound.surface.m_pointer = some 7 ∧ Sample.afterCreate.1.d.shell.m_pointer = some 3
    ∧ (PlasmaShellSurface.release Sample.bound Sample.quiet).2.calls = [Call.surface_destroy 7]
    ∧ (PlasmaShell.destroy Sample.afterCreate.1 Sample.afterCreate.2).2.fx.calls
        = Sample.afterCreate.2.fx.calls :=
  ⟨rfl, rfl,
    (destroy_never_and_release_once_calls_the_destructor Sample.bound Sample.quiet 7
      Sample.afterCreate.1 Sample.afterCreate.2 3 rfl rfl).2.1.2.1,
    (destroy_never_and_release_once_calls_the_destructor Sample.bound Sample.quiet 7
      Sample.afterCreate.1 Sample.afterCreate.2 3 rfl rfl).2.2.2.1.2⟩

/-! ## createSurface -/

/-- The state that the creating part of `createSurface` reaches: it always
returns the new object, registered last, bound to the new proxy, connected to
both signals of the shell. -/
theorem PlasmaShell.createSurface.create_eq (surface : WlSurface) (kwS : Option SurfaceId)
    (sh : PlasmaShell) (w : World) :
    PlasmaShell.createSurface.create surface kwS sh w
      = .returned w.nextObject
          ({ sh with
              interfaceAboutToBeReleased := sh.interfaceAboutToBeReleased ++ [w.nextObject]
              interfaceAboutToBeDestroyed := sh.interfaceAboutToBeDestroyed ++ [w.nextObject] },
            { s_surfaces := w.s_surfaces ++
                [{ PlasmaShellSurface.Private.fresh w.nextObject with
                    surface := { m_pointer := some w.nextProxy }, parentSurface := kwS }]
              fx :=
                { calls :=
                    match sh.d.queue with
                    | some queue =>
                      w.fx.calls ++ [Call.get_surface sh.d.shell.m_pointer surface w.nextProxy]
                        ++ [Call.addProxy queue w.nextProxy]
                    | none =>
                      w.fx.calls ++ [Call.get_surface sh.d.shell.m_pointer surface w.nextProxy]
                  listeners := add_listener (some w.nextProxy) w.nextObject w.fx.listeners
                  signals := w.fx.signals }
              nextObject := w.nextObject + 1
              nextProxy := w.nextProxy + 1
              cleared := w.cleared }) := rfl

/-- Handles cleared by an emitted teardown signal, for the proxy `a`: as many
as connected entries bound to `a`. -/
theorem clearedBy_count (a : Proxy) (rs : List ObjectId) (s : List PlasmaShellSurface.Private) :
    (clearedBy rs s).count a
      = s.countP (fun d => decide (d.q ∈ rs) && decide (d.surface.m_pointer = some a)) := by
  rw [← releaseCalls_count a rs s, releaseCalls_eq_map]
  exact (List.count_map_of_injective (clearedBy rs s) Call.surface_destroy
    (fun x y h => Call.surface_destroy.inj h) a).symm

/-- The handle of a connected entry that is still bound is among the handles
the teardown signal clears. -/
theorem mem_clearedBy (a : Proxy) (rs : List ObjectId) (s : List PlasmaShellSurface.Private)
    (d : PlasmaShellSurface.Private) (hd : d ∈ s) (hq : d.q ∈ rs)
    (hp : d.surface.m_pointer = some a) : a ∈ clearedBy rs s := by
  rw [← List.count_pos_iff, clearedBy_count]
  exact List.countP_pos_iff.mpr ⟨d, hd, by simp [hq, hp]⟩

/-- C9: for a valid shell bound to `ps`.  (1) A `createSurface` that finds no
wrapper for the surface returns a new valid object, registered last and
connected to both signals of the shell, whose handle stays as it was.
(2) `destroy()` first emits `interfaceAboutToBeDestroyed`, which clears the
handle of every connected surface and makes no call at all, and only then
clears the handle of the shell: the handles cleared are, in this order, those
of the connected surfaces that were still bound (for each proxy as many as
connected surfaces were bound to it, each such handle among them) and, last,
`ps`; after the emission the record holds the surfaces' handles and not yet
`ps`.  (3) `release()` first emits `interfaceAboutToBeReleased`, which clears
the same handles in the same order and calls the surface destructor on each
of them as it goes (exactly one call for a proxy that one connected surface
alone holds), and only then calls the destructor of the shell, as the last
call, and clears `ps`, as the last handle.  (4) On an unbound shell `destroy()`
and `release()` change nothing. -/
theorem shell_teardown_reaches_created_surfaces (sh : PlasmaShell) (w : World) (ps : Proxy)
    (hshell : sh.d.shell.m_pointer = some ps) :
    (∀ (env : Env) (surface : WlSurface),
        (∀ k, env.Surface_get surface = some k →
          PlasmaShellSurface.Private.get (some k) w.s_surfaces = none) →
        ∃ sh1 w1 d,
          PlasmaShell.createSurface env surface sh w = .returned w.nextObject (sh1, w1)
          ∧ sh1.d = sh.d
          ∧ sh1.interfaceAboutToBeReleased = sh.interfaceAboutToBeReleased ++ [w.nextObject]
          ∧ sh1.interfaceAboutToBeDestroyed = sh.interfaceAboutToBeDestroyed ++ [w.nextObject]
          ∧ w1.s_surfaces = w.s_surfaces ++ [d]
          ∧ d.q = w.nextObject
          ∧ PlasmaShellSurface.isValid d = true)
    ∧ (∃ cs : List Proxy,
        PlasmaShell.destroy sh w
          = ({ sh with d := { sh.d with shell := { m_pointer := none } } },
              { PlasmaShell.emitInterfaceAboutToBeDestroyed sh w with
                cleared := w.cleared ++ cs ++ [ps] })
        ∧ (PlasmaShell.destroy sh w).2.cleared = w.cleared ++ cs ++ [ps]
        ∧ (PlasmaShell.emitInterfaceAboutToBeDestroyed sh w).cleared = w.cleared ++ cs
        ∧ (PlasmaShell.emitInterfaceAboutToBeDestroyed sh w).s_surfaces
            = unbindAll sh.interfaceAboutToBeDestroyed w.s_surfaces
        ∧ (∀ d ∈ (PlasmaShell.emitInterfaceAboutToBeDestroyed sh w).s_surfaces,
            d.q ∈ sh.interfaceAboutToBeDestroyed → PlasmaShellSurface.isValid d = false)
        ∧ (PlasmaShell.emitInterfaceAboutToBeDestroyed sh w).fx = w.fx
        ∧ (∀ a, cs.count a
            = w.s_surfaces.countP (fun d =>
                decide (d.q ∈ sh.interfaceAboutToBeDestroyed)
                  && decide (d.surface.m_pointer = some a)))
        ∧ (∀ d ∈ w.s_surfaces, ∀ a, d.q ∈ sh.interfaceAboutToBeDestroyed →
            d.surface.m_pointer = some a → a ∈ cs))
    ∧ (∃ (ds : List Call) (cs : List Proxy),
        PlasmaShell.release sh w
          = ({ sh with d := { sh.d with shell := { m_pointer := none } } },
              { PlasmaShell.emitInterfaceAboutToBeReleased sh w with
                fx := { (PlasmaShell.emitInterfaceAboutToBeReleased sh w).fx with
                  calls := w.fx.calls ++ ds ++ [Call.shell_destroy ps] }
                cleared := w.cleared ++ cs ++ [ps] })
        ∧ (PlasmaShell.emitInterfaceAboutToBeReleased sh w).s_surfaces
            = unbindAll sh.interfaceAboutToBeReleased w.s_surfaces
        ∧ (∀ d ∈ (PlasmaShell.emitInterfaceAboutToBeReleased sh w).s_surfaces,
            d.q ∈ sh.interfaceAboutToBeReleased → PlasmaShellSurface.isValid d = false)
        ∧ (PlasmaShell.emitInterfaceAboutToBeReleased sh w).fx.calls = w.fx.calls ++ ds
        ∧ (∀ c ∈ ds, ∃ a, c = Call.surface_destroy a)
        ∧ (∀ a, ds.count (Call.surface_destroy a)
            = w.s_surfaces.countP (fun d =>
                decide (d.q ∈ sh.interfaceAboutToBeReleased)
                  && decide (d.surface.m_pointer = some a)))
        ∧ (∀ d ∈ w.s_surfaces, ∀ a, d.q ∈ sh.interfaceAboutToBeReleased →
            d.surface.m_pointer = some a →
            w.s_surfaces.countP (fun d0 => decide (d0.surface.m_pointer = some a)) = 1 →
            ds.count (Call.surface_destroy a) = 1)
        ∧ ds = cs.map Call.surface_destroy
        ∧ (PlasmaShell.release sh w).2.cleared = w.cleared ++ cs ++ [ps]
        ∧ (PlasmaShell.emitInterfaceAboutToBeReleased sh w).cleared = w.cleared ++ cs
        ∧ (∀ d ∈ w.s_surfaces, ∀ a, d.q ∈ sh.interfaceAboutToBeReleased →
            d.surface.m_pointer = some a → a ∈ cs))
    ∧ (∀ (sh0 : PlasmaShell) (w0 : World), sh0.d.shell.m_pointer = none →
        PlasmaShell.destroy sh0 w0 = (sh0, w0) ∧ PlasmaShell.release sh0 w0 = (sh0, w0)) := by
  have hv : sh.d.shell.isValid = true := by simp [WaylandPointer.isValid, hshell]
  refine ⟨?_, ?_, ?_, ?_⟩
  · intro env surface hnew
    have hrun : PlasmaShell.createSurface env surface sh w
        = PlasmaShell.createSurface.create surface (env.Surface_get surface) sh w := by
      cases hk : env.Surface_get surface with
      | none => simp [PlasmaShell.createSurface, PlasmaShell.isValid, hv, hk]
      | some k => simp [PlasmaShell.createSurface, PlasmaShell.isValid, hv, hk, hnew k hk]
    rw [hrun, PlasmaShell.createSurface.create_eq]
    exact ⟨_, _, _, rfl, rfl, rfl, rfl, rfl, rfl, rfl⟩
  · have hrun : PlasmaShell.destroy sh w
        = ({ sh with d := { sh.d with shell := { m_pointer := none } } },
            { PlasmaShell.emitInterfaceAboutToBeDestroyed sh w with
              cleared := w.cleared ++ clearedBy sh.interfaceAboutToBeDestroyed w.s_surfaces
                ++ [ps] }) := by
      simp [PlasmaShell.destroy, hv, WaylandPointer.destroy, hshell, clearedHandle,
        PlasmaShell.emitInterfaceAboutToBeDestroyed, emitSignal_destroy]
    refine ⟨clearedBy sh.interfaceAboutToBeDestroyed w.s_surfaces, hrun, ?_, ?_, ?_, ?_, ?_, ?_,
      ?_⟩
    · rw [hrun]
    · simp [PlasmaShell.emitInterfaceAboutToBeDestroyed, emitSignal_destroy]
    · simp [PlasmaShell.emitInterfaceAboutToBeDestroyed, emitSignal_destroy]
    · intro d hd hq
      simp only [PlasmaShell.emitInterfaceAboutToBeDestroyed, emitSignal_destroy] at hd
      exact unbindAll_invalid _ _ d hd hq
    · simp [PlasmaShell.emitInterfaceAboutToBeDestroyed, emitSignal_destroy]
    · intro a
      exact clearedBy_count a _ _
    · intro d hd a hq hp
      exact mem_clearedBy a _ _ d hd hq hp
  · have hcount := fun a => releaseCalls_count a sh.interfaceAboutToBeReleased w.s_surfaces
    have hrun : PlasmaShell.release sh w
        = ({ sh with d := { sh.d with shell := { m_pointer := none } } },
            { PlasmaShell.emitInterfaceAboutToBeReleased sh w with
              fx := { (PlasmaShell.emitInterfaceAboutToBeReleased sh w).fx with
                calls := w.fx.calls ++ releaseCalls sh.interfaceAboutToBeReleased w.s_surfaces
                  ++ [Call.shell_destroy ps] }
              cleared := w.cleared ++ clearedBy sh.interfaceAboutToBeReleased w.s_surfaces
                ++ [ps] }) := by
      simp [PlasmaShell.release, hv, WaylandPointer.release, hshell, clearedHandle,
        PlasmaShell.emitInterfaceAboutToBeReleased, emitSignal_release]
    refine ⟨releaseCalls sh.interfaceAboutToBeReleased w.s_surfaces,
      clearedBy sh.interfaceAboutToBeReleased w.s_surfaces, hrun, ?_, ?_, ?_, ?_, ?_, ?_, ?_, ?_,
      ?_, ?_⟩
    · simp [PlasmaShell.emitInterfaceAboutToBeReleased, emitSignal_release]
    · intro d hd hq
      simp only [PlasmaShell.emitInterfaceAboutToBeReleased, emitSignal_release] at hd
      exact unbindAll_invalid _ _ d hd hq
    · simp [PlasmaShell.emitInterfaceAboutToBeReleased, emitSignal_release]
    · exact releaseCalls_are_surface_destructors _ _
    · intro a
      exact hcount a
    · intro d hd a hq hp hone
      rw [hcount a]
      apply Nat.le_antisymm
      · rw [← hone]
        apply List.countP_mono_left
        intro x _ hx
        simp only [Bool.and_eq_true, decide_eq_true_eq] at hx
        simpa using hx.2
      · apply List.countP_pos_iff.mpr
        exact ⟨d, hd, by simp [hq, hp]⟩
    · exact releaseCalls_eq_map _ _
    · rw [hrun]
    · simp [PlasmaShell.emitInterfaceAboutToBeReleased, emitSignal_release]
    · intro d hd a hq hp
      exact mem_clearedBy a _ _ d hd hq hp
  · intro sh0 w0 h0
    simp [PlasmaShell.destroy, PlasmaShell.release, WaylandPointer.isValid, h0]

/-- Witness of C9 on the sample shell (proxy 3) after it created the surface
object 1 on proxy 7: `destroy()` clears the handle 7 and then the handle 3;
`release()` calls the surface destructor on 7 and then the shell destructor
on 3. -/
theorem shell_teardown_reaches_created_surfaces_witness :
    Sample.afterCreate.1.d.shell.m_pointer = some 3
    ∧ (PlasmaShell.destroy Sample.afterCreate.1 Sample.afterCreate.2).2.cleared = [7, 3]
    ∧ (PlasmaShell.release Sample.afterCreate.1 Sample.afterCreate.2).2.cleared = [7, 3]
    ∧ (∃ cs : List Proxy,
        (PlasmaShell.destroy Sample.afterCreate.1 Sample.afterCreate.2).2.cleared
          = Sample.afterCreate.2.cleared ++ cs ++ [3]
        ∧ 7 ∈ cs)
    ∧ ∃ ds : List Call,
        (PlasmaShell.release Sample.afterCreate.1 Sample.afterCreate.2).2.fx.calls
          = Sample.afterCreate.2.fx.calls ++ ds ++ [Call.shell_destroy 3]
        ∧ ds.count (Call.surface_destroy 7) = 1 := by
  obtain ⟨_, ⟨cs, _, hcleared, _, _, _, _, _, hmem⟩, ⟨ds, _, hrun, _, _, _, _, hcount, _⟩, _⟩ :=
    shell_teardown_reaches_created_surfaces Sample.afterCreate.1 Sample.afterCreate.2 3 rfl
  refine ⟨rfl, rfl, rfl, ⟨cs, hcleared, ?_⟩, ds, ?_, ?_⟩
  · exact hmem { Sample.bound with parentSurface := some 5 } (by decide) 7 (by decide) rfl
  · rw [hrun]
  · rw [hcount 7]
    rfl

/-! ## Events reach the object bound to their proxy -/

/-- C7: for two surface objects at different addresses, bound to different
proxies `A` and `B`.  Each callback called with the private state of the first
and the proxy `A` returns after emitting its signal once, on the first object.
Each callback called with the private state of the second and the proxy `A`
stops on the assertion and emits nothing.  An event for `A`, delivered to the
listener that `setup` registered for `A`, appends one signal, of the first
object, and the signals of the second object stay as they were.  `setup` on an
unbound object registers that object as the listener of the proxy it binds. -/
theorem event_notifies_only_the_bound_instance (pA pB : PlasmaShellSurface.Private)
    (A B : Proxy) (e : Effects)
    (hA : pA.surface.m_pointer = some A) (hB : pB.surface.m_pointer = some B)
    (hAB : A ≠ B) (hq : pA.q ≠ pB.q) :
    PlasmaShellSurface.Private.autoHidingPanelHiddenCallback pA (some A) e
        = .returned () { e with signals := e.signals ++ [(pA.q, Signal.autoHidePanelHidden)] }
    ∧ PlasmaShellSurface.Private.autoHidingPanelShownCallback pA (some A) e
        = .returned () { e with signals := e.signals ++ [(pA.q, Signal.autoHidePanelShown)] }
    ∧ PlasmaShellSurface.Private.autoHidingPanelHiddenCallback pB (some A) e
        = .aborted .assertion e
    ∧ PlasmaShellSurface.Private.autoHidingPanelShownCallback pB (some A) e
        = .aborted .assertion e
    ∧ (∀ (w : World) (event : SurfaceEvent),
        w.fx.listeners.find? (fun l => l.1 == A) = some (A, pA.q) →
        w.s_surfaces.find? (fun d => d.q == pA.q) = some pA →
        dispatchEvent event A w
            = .returned () { w with fx := { w.fx with signals := w.fx.signals ++
                [(pA.q, match event with
                  | .autohide_panel_hidden => Signal.autoHidePanelHidden
                  | .autohide_panel_shown => Signal.autoHidePanelShown)] } }
          ∧ (dispatchEvent event A w).state.fx.signals.filter (fun x => x.1 = pB.q)
              = w.fx.signals.filter (fun x => x.1 = pB.q))
    ∧ (∀ (d0 : PlasmaShellSurface.Private) (e0 : Effects),
        d0.surface.m_pointer = none → (∀ l ∈ e0.listeners, l.1 ≠ A) →
        ∃ d1 e1, PlasmaShellSurface.Private.setup (some A) d0 e0 = .returned () (d1, e1)
          ∧ d1.surface.m_pointer = some A ∧ d1.q = d0.q
          ∧ e1.listeners.find? (fun l => l.1 == A) = some (A, d0.q)) := by
  have hBA : ¬ (pB.surface.m_pointer = some A) := by
    rw [hB]
    intro h
    exact hAB (Option.some.inj h).symm
  have hdispatch : ∀ (w : World) (event : SurfaceEvent),
      w.fx.listeners.find? (fun l => l.1 == A) = some (A, pA.q) →
      w.s_surfaces.find? (fun d => d.q == pA.q) = some pA →
      dispatchEvent event A w
        = .returned () { w with fx := { w.fx with signals := w.fx.signals ++
            [(pA.q, match event with
              | .autohide_panel_hidden => Signal.autoHidePanelHidden
              | .autohide_panel_shown => Signal.autoHidePanelShown)] } } := by
    intro w event hl hs
    cases event <;>
      simp [dispatchEvent, hl, hs, PlasmaShellSurface.Private.s_listener,
        PlasmaShellSurface.Private.autoHidingPanelHiddenCallback,
        PlasmaShellSurface.Private.autoHidingPanelShownCallback, hA]
  refine ⟨?_, ?_, ?_, ?_, ?_, ?_⟩
  · simp [PlasmaShellSurface.Private.autoHidingPanelHiddenCallback, hA]
  · simp [PlasmaShellSurface.Private.autoHidingPanelShownCallback, hA]
  · simp [PlasmaShellSurface.Private.autoHidingPanelHiddenCallback, hBA]
  · simp [PlasmaShellSurface.Private.autoHidingPanelShownCallback, hBA]
  · intro w event hl hs
    refine ⟨hdispatch w event hl hs, ?_⟩
    rw [hdispatch w event hl hs]
    simp [Outcome.state, List.filter_append, hq]
  · intro d0 e0 h0 hfree
    have hany : e0.listeners.any (fun l => l.1 == A) = false := by
      rw [List.any_eq_false]
      intro l hl
      simpa using hfree l hl
    have hfind : e0.listeners.find? (fun l => l.1 == A) = none := by
      rw [List.find?_eq_none]
      intro l hl
      simpa using hfree l hl
    refine ⟨{ d0 with surface := { m_pointer := some A } },
      { e0 with listeners := e0.listeners ++ [(A, d0.q)] }, ?_, rfl, rfl, ?_⟩
    · simp [PlasmaShellSurface.Private.setup, WaylandPointer.isValid, WaylandPointer.setup, h0,
        add_listener, hany]
    · simp [List.find?_append, hfind]

/-- Witness of C7 on the two sample surfaces (objects 1 and 2, proxies 7 and
8): the callback for an event on proxy 7 stops on the assertion when it is
given the private state of object 2. -/
theorem event_notifies_only_the_bound_instance_witness :
    Sample.bound.surface.m_pointer = some 7 ∧ Sample.boundToo.surface.m_pointer = some 8
    ∧ (7 : Proxy) ≠ 8 ∧ Sample.bound.q ≠ Sample.boundToo.q
    ∧ PlasmaShellSurface.Private.autoHidingPanelHiddenCallback Sample.bound (some 7) Sample.quiet
        = .returned ()
            { Sample.quiet with signals := [(1, Signal.autoHidePanelHidden)] }
    ∧ PlasmaShellSurface.Private.autoHidingPanelHiddenCallback Sample.boundToo (some 7)
        Sample.quiet = .aborted .assertion Sample.quiet :=
  ⟨rfl, rfl, by decide, by decide,
    (event_notifies_only_the_bound_instance Sample.bound Sample.boundToo 7 8 Sample.quiet rfl rfl
      (by decide) (by decide)).1,
    (event_notifies_only_the_bound_instance Sample.bound Sample.boundToo 7 8 Sample.quiet rfl rfl
      (by decide) (by decide)).2.2.1⟩

/-! ## role() -/

/-- Clearing handles keeps the address and the role of every entry. -/
theorem unbindAll_roles (rs : List ObjectId) (s : List PlasmaShellSurface.Private) :
    (unbindAll rs s).map (fun d => (d.q, PlasmaShellSurface.role d))
      = s.map (fun d => (d.q, PlasmaShellSurface.role d)) := by
  induction s with
  | nil => rfl
  | cons d ds ih =>
    simp only [unbindAll, List.map_cons, List.map_map] at ih ⊢
    rw [ih]
    by_cases h : d.q ∈ rs <;>
      simp [h, PlasmaShellSurface.Private.unbound, PlasmaShellSurface.role]

/-- The delivery of an event leaves the registry as it is. -/
theorem dispatchEvent_registry (event : SurfaceEvent) (proxy : Proxy) (w : World) :
    (dispatchEvent event proxy w).state.s_surfaces = w.s_surfaces := by
  unfold dispatchEvent
  split
  · rfl
  · split
    · rfl
    · split <;> rfl

/-- `createSurface` leaves the roles of the registered objects as they are,
and a new object, if one is made, has the role `Normal`. -/
theorem PlasmaShell.createSurface_roles (env : Env) (surface : WlSurface) (sh : PlasmaShell)
    (w : World) :
    (PlasmaShell.createSurface env surface sh w).state.2.s_surfaces.map
        (fun d => (d.q, PlasmaShellSurface.role d))
      = w.s_surfaces.map (fun d => (d.q, PlasmaShellSurface.role d))
    ∨ (PlasmaShell.createSurface env surface sh w).state.2.s_surfaces.map
        (fun d => (d.q, PlasmaShellSurface.role d))
      = w.s_surfaces.map (fun d => (d.q, PlasmaShellSurface.role d))
          ++ [(w.nextObject, EnumValue.enumerator Role.Normal)] := by
  unfold PlasmaShell.createSurface
  by_cases hv : sh.isValid = true
  · cases hk : env.Surface_get surface with
    | none =>
      right
      simp [hv, PlasmaShell.createSurface.create_eq, Outcome.state,
        PlasmaShellSurface.Private.fresh, PlasmaShellSurface.role]
    | some k =>
      cases hg : PlasmaShellSurface.Private.get (some k) w.s_surfaces with
      | none =>
        right
        simp [hv, hg, PlasmaShell.createSurface.create_eq, Outcome.state,
          PlasmaShellSurface.Private.fresh, PlasmaShellSurface.role]
      | some s0 =>
        left
        simp [hv, hg, Outcome.state]
  · left
    simp [hv, Outcome.state]

namespace PlasmaShellSurface

/-- C10: on a valid surface, `setRole(r)` returns and `role()` is `r`
afterwards, for every enumerator `r` and every version of the proxy; for
`CriticalNotification` on a proxy below the since-version the request carries
`NOTIFICATION` and `role()` is still `CriticalNotification`.  A newly
constructed object has the role `Normal`.  No other operation changes the role of
any object: none of the other methods of the surface, whether it returns or
stops, none of the two callbacks (which only emit), and on the registry neither
`createSurface`, nor `destroy()` and `release()` of a shell, nor the delivery of
an event. -/
theorem role_is_the_role_given_to_setRole (env : Env) (r : Role) (d : Private) (e : Effects)
    (p : Proxy) (hbound : d.surface.m_pointer = some p) :
    ((∃ e1, setRole env (.enumerator r) d e = .returned () ({ d with role := .enumerator r }, e1))
      ∧ role (setRole env (.enumerator r) d e).state.1 = .enumerator r)
    ∧ (env.proxy_version p < env.ROLE_CRITICALNOTIFICATION_SINCE_VERSION →
        setRole env (.enumerator .CriticalNotification) d e
          = .returned () ({ d with role := .enumerator .CriticalNotification },
              { e with calls := e.calls ++ [Call.set_role (some p) WlRole.ROLE_NOTIFICATION] })
        ∧ role (setRole env (.enumerator .CriticalNotification) d e).state.1
            = .enumerator .CriticalNotification)
    ∧ (∀ q, role (Private.fresh q) = .enumerator .Normal)
    ∧ (∀ (d0 : Private) (e0 : Effects),
        (∀ s, role (Private.setup s d0 e0).state.1 = role d0)
        ∧ (∀ s, role (setup s d0 e0).state.1 = role d0)
        ∧ role (release d0 e0).1 = role d0
        ∧ role (destroy d0 e0).1 = role d0
        ∧ (∀ x y, role (setPosition x y d0 e0).state.1 = role d0)
        ∧ (∀ b, role (setPanelBehavior b d0 e0).state.1 = role d0)
        ∧ (∀ b, role (setSkipTaskbar b d0 e0).state.1 = role d0)
        ∧ (∀ b, role (setSkipSwitcher b d0 e0).state.1 = role d0)
        ∧ role (requestHideAutoHidingPanel d0 e0).state.1 = role d0
        ∧ role (requestShowAutoHidingPanel d0 e0).state.1 = role d0
        ∧ (∀ b, role (setPanelTakesFocus b d0 e0).state.1 = role d0)
        ∧ (∀ b, role (setVisible b d0 e0).state.1 = role d0)
        ∧ (∀ t, role (setWindowType t d0 e0).state.1 = role d0))
    ∧ (∀ (sh : PlasmaShell) (w : World),
        (PlasmaShell.destroy sh w).2.s_surfaces.map (fun d => (d.q, role d))
            = w.s_surfaces.map (fun d => (d.q, role d))
        ∧ (PlasmaShell.release sh w).2.s_surfaces.map (fun d => (d.q, role d))
            = w.s_surfaces.map (fun d => (d.q, role d))
        ∧ (∀ env0 surface,
            (PlasmaShell.createSurface env0 surface sh w).state.2.s_surfaces.map
                (fun d => (d.q, role d))
              = w.s_surfaces.map (fun d => (d.q, role d))
            ∨ (PlasmaShell.createSurface env0 surface sh w).state.2.s_surfaces.map
                (fun d => (d.q, role d))
              = w.s_surfaces.map (fun d => (d.q, role d))
                  ++ [(w.nextObject, EnumValue.enumerator Role.Normal)])
        ∧ (∀ event proxy, (dispatchEvent event proxy w).state.s_surfaces = w.s_surfaces)) := by
  have hrun := setRole_on_bound_handle env r d e p hbound
  refine ⟨⟨⟨_, hrun⟩, by rw [hrun]; rfl⟩, ?_, fun _ => rfl, ?_, ?_⟩
  · intro hlt
    have hcrit := setRole_on_bound_handle env .CriticalNotification d e p hbound
    have hcode : Spec.documentedRoleCode env.ROLE_CRITICALNOTIFICATION_SINCE_VERSION
        (env.proxy_version p) .CriticalNotification = WlRole.ROLE_NOTIFICATION := by
      simp [Spec.documentedRoleCode, hlt]
    rw [hcode] at hcrit
    exact ⟨hcrit, by rw [hcrit]; rfl⟩
  · intro d0 e0
    refine ⟨?_, ?_, ?_, ?_, ?_, ?_, fun _ => rfl, fun _ => rfl, rfl, rfl, fun _ => rfl,
      fun _ => rfl, ?_⟩
    · intro s
      unfold Private.setup
      split
      · rfl
      · split
        · rfl
        · split <;> rfl
    · intro s
      unfold setup Private.setup
      split
      · rfl
      · split
        · rfl
        · split <;> rfl
    · rw [release_eq]; rfl
    · rw [destroy_eq]; rfl
    · intro x y
      unfold setPosition
      split <;> rfl
    · intro b
      unfold setPanelBehavior
      split
      · rfl
      · split <;> rfl
    · intro t
      unfold setWindowType
      split <;> rfl
  · intro sh w
    refine ⟨?_, ?_, fun env0 surface => PlasmaShell.createSurface_roles env0 surface sh w,
      fun event proxy => dispatchEvent_registry event proxy w⟩
    · unfold PlasmaShell.destroy
      split
      · rfl
      · simp only [PlasmaShell.emitInterfaceAboutToBeDestroyed, emitSignal_destroy]
        exact unbindAll_roles _ _
    · unfold PlasmaShell.release
      split
      · rfl
      · simp only [PlasmaShell.emitInterfaceAboutToBeReleased, emitSignal_release]
        exact unbindAll_roles _ _

/-- Witness of C10: on the sample surface, whose proxy has version 5 while
`CriticalNotification` exists since version 6, `role()` is
`CriticalNotification` after `setRole(CriticalNotification)`. -/
theorem role_is_the_role_given_to_setRole_witness :
    Sample.bound.surface.m_pointer = some 7
    ∧ role (setRole Sample.env (.enumerator .CriticalNotification) Sample.bound
        Sample.quiet).state.1 = .enumerator .CriticalNotification :=
  ⟨rfl,
    (role_is_the_role_given_to_setRole Sample.env .CriticalNotification Sample.bound Sample.quiet
      7 rfl).1.2⟩

end PlasmaShellSurface

end Client
end KWayland
